import Mathlib

/-!
# Verification of the `dings-things/oauth2` provider-dispatch core

Shallow embedding of the repository's core: the per-provider OAuth2
adapters (Google, Kakao, Naver), the normalized `TokenInfo` / `UserInfo`
result views, the dispatch client (`oauth2Client`), and the error
taxonomy (`errors.go`).

Modelling conventions:
* Go strings are byte slices; they are embedded as `GoStr := List Nat`
  with every byte below 256 (the well-formedness predicate `ByteStr`).
  `gs` builds literals from ASCII Lean strings.
* The HTTP executor (`*http.Client`) is an explicit function from a
  request to either a transport error or a response.  Adapter operations
  return the issued requests alongside their result, so "zero network
  calls" is the statement that the request log is empty.
* A response body is carried both raw (`bodyRaw`, the bytes that
  `io.ReadAll` yields) and as the result of JSON parsing it
  (`bodyJson : Option Json`, `none` when the bytes are not valid JSON);
  `encoding/json` struct unmarshalling is embedded per target struct,
  following Go's rules (missing key or JSON null leaves the zero value,
  a type-mismatched value is an error).  Decoder error strings are
  canonicalized (the exact `encoding/json` message text is not modelled).
* `net/url` query escaping, `url.Values.Encode` (which sorts keys), and
  `url.ParseQuery` are embedded byte-for-byte from the Go library
  behaviour the adapters rely on.
-/

/-- A Go string: a list of byte values. -/
abbrev GoStr := List Nat

/-- ASCII string literal helper: `Char.toNat` of each character equals the
UTF-8 byte for characters below `0x80`, which covers every literal in the
repository. -/
def gs (s : String) : GoStr := s.data.map Char.toNat

/-- Well-formedness of an embedded Go string: every entry is a byte. -/
def ByteStr (s : GoStr) : Prop := ∀ b ∈ s, b < 256

instance : DecidablePred ByteStr := fun s =>
  inferInstanceAs (Decidable (∀ b ∈ s, b < 256))

/-! ## `net/url` query escaping (`url.QueryEscape` / `url.QueryUnescape`) -/

/-- Bytes `url.shouldEscape` leaves untouched in query components:
ASCII letters, digits, and `-`, `.`, `_`, `~`. -/
def unreservedByte (b : Nat) : Bool :=
  (65 ≤ b && b ≤ 90) || (97 ≤ b && b ≤ 122) || (48 ≤ b && b ≤ 57) ||
    b == 45 || b == 46 || b == 95 || b == 126

/-- Uppercase hexadecimal digit of a value below 16 (as in Go's
`"0123456789ABCDEF"` table). -/
def hexDigit (n : Nat) : Nat := if n < 10 then 48 + n else 55 + n

/-- `url.QueryEscape` on a single byte: unreserved bytes pass through,
space becomes `+`, everything else becomes `%XX`. -/
def escByte (b : Nat) : GoStr :=
  if unreservedByte b then [b]
  else if b = 32 then [43]
  else [37, hexDigit (b / 16 % 16), hexDigit (b % 16)]

/-- `url.QueryEscape`: byte-wise escaping. -/
def queryEscape (s : GoStr) : GoStr := s.flatMap escByte

/-- Value of a hexadecimal digit byte (Go's `unhex`). -/
def unhex (b : Nat) : Option Nat :=
  if 48 ≤ b ∧ b ≤ 57 then some (b - 48)
  else if 65 ≤ b ∧ b ≤ 70 then some (b - 55)
  else if 97 ≤ b ∧ b ≤ 102 then some (b - 87)
  else none

/-- `url.QueryUnescape`: `%XX` becomes the byte `XX` (malformed escapes are
an error), `+` becomes space, other bytes pass through. -/
def queryUnescape : GoStr → Option GoStr
  | [] => some []
  | c :: rest =>
    if c = 37 then
      match rest with
      | h1 :: h2 :: rest2 =>
        match unhex h1, unhex h2 with
        | some hi, some lo => (queryUnescape rest2).map ((16 * hi + lo) :: ·)
        | _, _ => none
      | _ => none
    else if c = 43 then (queryUnescape rest).map (32 :: ·)
    else (queryUnescape rest).map (c :: ·)

/-! ## `url.Values.Encode`: keys sorted bytewise, `k=v` pairs joined by `&` -/

/-- Bytewise lexicographic `≤` on Go strings (the order `sort.Strings`
uses inside `url.Values.Encode`). -/
def goStrLe : GoStr → GoStr → Bool
  | [], _ => true
  | _ :: _, [] => false
  | a :: as_, b :: bs =>
    if a < b then true
    else if b < a then false
    else goStrLe as_ bs

/-- Insert one key-value pair into a key-sorted association list. -/
def insertKV (x : GoStr × GoStr) : List (GoStr × GoStr) → List (GoStr × GoStr)
  | [] => [x]
  | y :: ys => if goStrLe x.1 y.1 then x :: y :: ys else y :: insertKV x ys

/-- Sort an association list by key (the keys in the adapters are
pairwise distinct, so this agrees with `sort.Strings` over the map
keys). -/
def sortKVs : List (GoStr × GoStr) → List (GoStr × GoStr)
  | [] => []
  | x :: xs => insertKV x (sortKVs xs)

/-- Join encoded `k=v` fragments with `&` (byte 38). -/
def joinAmp : List GoStr → GoStr
  | [] => []
  | [x] => x
  | x :: y :: xs => x ++ 38 :: joinAmp (y :: xs)

/-- `url.Values.Encode`: sort by key, escape keys and values, join. -/
def encodeValues (kvs : List (GoStr × GoStr)) : GoStr :=
  joinAmp ((sortKVs kvs).map fun kv => queryEscape kv.1 ++ 61 :: queryEscape kv.2)

/-! ## `url.ParseQuery` -/

/-- `strings.Cut`: the part before the first occurrence of `sep`, the part
after it, and whether it occurred. -/
def cutOn (sep : Nat) : GoStr → GoStr × GoStr × Bool
  | [] => ([], [], false)
  | c :: rest =>
    if c = sep then ([], rest, true)
    else
      let r := cutOn sep rest
      (c :: r.1, r.2.1, r.2.2)

theorem cutOn_rest_length_le (sep : Nat) :
    ∀ s : GoStr, (cutOn sep s).2.1.length ≤ s.length := by
  intro s
  induction s with
  | nil => simp [cutOn]
  | cons c rest ih =>
    simp only [cutOn]
    split
    · simp
    · simpa using Nat.le_succ_of_le ih

theorem cutOn_rest_length_cons (sep c : Nat) (rest : GoStr) :
    (cutOn sep (c :: rest)).2.1.length ≤ rest.length := by
  simp only [cutOn]
  split
  · simp
  · simpa using cutOn_rest_length_le sep rest

/-- `url.ParseQuery`, returning the pairs in order of appearance together
with an error flag (Go returns the partially filled `Values` next to the
first error; pairs whose piece contains `;` or fails to unescape are
skipped). -/
def parseQueryGo (q : GoStr) : List (GoStr × GoStr) × Bool :=
  match h : q with
  | [] => ([], false)
  | _ :: _ =>
    let c := cutOn 38 q
    let piece := c.1
    let rest := c.2.1
    let tail := parseQueryGo rest
    if 59 ∈ piece then (tail.1, true)
    else if piece = [] then tail
    else
      let kv := cutOn 61 piece
      match queryUnescape kv.1, queryUnescape kv.2.1 with
      | some k, some v => ((k, v) :: tail.1, tail.2)
      | _, _ => (tail.1, true)
termination_by q.length
decreasing_by
  subst h
  exact Nat.lt_succ_of_le (cutOn_rest_length_cons 38 _ _)

/-- First-match association lookup (`url.Values.Get` returns the first
value associated with a key). -/
def assocGet (k : GoStr) : List (GoStr × GoStr) → Option GoStr
  | [] => none
  | kv :: rest => if kv.1 = k then some kv.2 else assocGet k rest

/-! ## Error taxonomy (`errors.go`) -/

/-- Go `error` values produced by this repository: the six sentinel
errors declared in `errors.go` plus values built by `fmt.Errorf` with a
`%w`-wrapped inner error (every `fmt.Errorf` in this repository wraps
exactly one error, through `WrapProviderError`). -/
inductive GoError where
  | providerNotSet
  | redirectURLNotSet
  | emptyAuthCode
  | tokenRequestFailed
  | userInfoRequestFailed
  | emptyRefreshToken
  | errorf (msg : GoStr) (wrapped : GoError)
  deriving DecidableEq

/-- `err.Error()`: the message text of an error value (sentinel texts are
those in `errors.go`). -/
def errMessage : GoError → GoStr
  | .providerNotSet => gs "provider not set"
  | .redirectURLNotSet => gs "redirect URL is not set for provider"
  | .emptyAuthCode => gs "authorization code is empty"
  | .tokenRequestFailed => gs "failed to get access token"
  | .userInfoRequestFailed => gs "failed to get user info"
  | .emptyRefreshToken => gs "refresh token is empty"
  | .errorf msg _ => msg

/-- `errors.Is`: walk the `%w` chain looking for the target value. -/
def errorsIs : GoError → GoError → Bool
  | e, target =>
    if e = target then true
    else
      match e with
      | .errorf _ inner => errorsIs inner target
      | _ => false

/-- `WrapProviderError` (`errors.go`):
`fmt.Errorf("%s provider: %w: %s", provider, base, context)` — one
`errorf` node whose message interpolates provider, base message and
context, wrapping `base`. -/
def WrapProviderError (provider : GoStr) (base : GoError) (context : GoStr) : GoError :=
  .errorf (provider ++ gs " provider: " ++ errMessage base ++ gs ": " ++ context) base

/-- The message-erased shape of an error value: what a caller can observe
of an error without reading any message string (the `%w` structure and
the sentinel identities). -/
inductive ErrShape where
  | providerNotSet
  | redirectURLNotSet
  | emptyAuthCode
  | tokenRequestFailed
  | userInfoRequestFailed
  | emptyRefreshToken
  | errorf (wrapped : ErrShape)
  deriving DecidableEq

/-- Erase every message string from an error value, keeping its
structure. -/
def eraseMsgs : GoError → ErrShape
  | .providerNotSet => .providerNotSet
  | .redirectURLNotSet => .redirectURLNotSet
  | .emptyAuthCode => .emptyAuthCode
  | .tokenRequestFailed => .tokenRequestFailed
  | .userInfoRequestFailed => .userInfoRequestFailed
  | .emptyRefreshToken => .emptyRefreshToken
  | .errorf _ inner => .errorf (eraseMsgs inner)

/-! ## JSON values and `encoding/json` struct unmarshalling -/

/-- A decoded JSON document.  Numbers are restricted to integers: every
numeric field the adapters decode (`id`, `expires_in`) is integral. -/
inductive Json where
  | null
  | bool (b : Bool)
  | num (n : Int)
  | str (s : GoStr)
  | arr (elems : List Json)
  | obj (fields : List (GoStr × Json))

/-- Look a key up in a JSON object (keys are unique in every payload the
adapters receive). -/
def jsonGet (fields : List (GoStr × Json)) (k : GoStr) : Option Json :=
  match fields with
  | [] => none
  | f :: rest => if f.1 = k then some f.2 else jsonGet rest k

/-- Unmarshal a JSON object member into a Go `string` field: absent key
or JSON `null` leaves the zero value `""`; a non-string value is an
`UnmarshalTypeError`. -/
def getStrField (fields : List (GoStr × Json)) (k : GoStr) : Except GoStr GoStr :=
  match jsonGet fields k with
  | none => .ok []
  | some .null => .ok []
  | some (.str s) => .ok s
  | some _ => .error (gs "json: cannot unmarshal value into string field")

/-- Unmarshal a JSON object member into a Go `int` field: absent key or
JSON `null` leaves the zero value `0`; a non-number is an error. -/
def getIntField (fields : List (GoStr × Json)) (k : GoStr) : Except GoStr Int :=
  match jsonGet fields k with
  | none => .ok 0
  | some .null => .ok 0
  | some (.num n) => .ok n
  | some _ => .error (gs "json: cannot unmarshal value into int field")

/-- Canonical message for a body that is not valid JSON (`encoding/json`
syntax errors are canonicalized to this text). -/
def invalidJsonMsg : GoStr := gs "invalid character in JSON input"

/-! ## HTTP model -/

/-- An HTTP request as the adapters build them. -/
structure HttpRequest where
  method : GoStr
  url : GoStr
  headers : List (GoStr × GoStr)
  body : GoStr
  deriving DecidableEq

/-- An HTTP response.  `bodyRaw` is the byte sequence `io.ReadAll`
produces; `bodyJson` is the JSON parse of those bytes (`none` when they
are not valid JSON). -/
structure HttpResponse where
  statusCode : Nat
  bodyRaw : GoStr
  bodyJson : Option Json

/-- The HTTP executor (`(*http.Client).Do`): transport error message or a
response. -/
abbrev Exec := HttpRequest → Except GoStr HttpResponse

/-- Result of an adapter operation: outcome plus the requests issued
through the executor, in order. -/
abbrev OpRes (α : Type) := Except GoError α × List HttpRequest

/-! ## `strconv` -/

/-- Digits-only decimal value: `some` iff the list is non-empty and all
bytes are ASCII digits. -/
def decDigits (s : GoStr) : Option Nat :=
  if s ≠ [] ∧ ∀ b ∈ s, 48 ≤ b ∧ b ≤ 57 then
    some (s.foldl (fun acc b => 10 * acc + (b - 48)) 0)
  else none

/-- `strconv.Atoi`: optional sign followed by at least one digit; `none`
on any syntax error.  (Go's `int64` range clamping on overflow is not
modelled; no claim involves out-of-range inputs.) -/
def atoiGo (s : GoStr) : Option Int :=
  match s with
  | [] => none
  | c :: rest =>
    if c = 43 then (decDigits rest).map Int.ofNat
    else if c = 45 then (decDigits rest).map (fun n => -Int.ofNat n)
    else (decDigits s).map Int.ofNat

/-- Little-endian digits of a positive number. -/
def natDigitsRev (n : Nat) : GoStr :=
  if h : n = 0 then [] else (48 + n % 10) :: natDigitsRev (n / 10)
decreasing_by exact Nat.div_lt_self (Nat.pos_of_ne_zero h) (by omega)

/-- Decimal rendering of a natural number. -/
def itoaNat (n : Nat) : GoStr :=
  if n = 0 then [48] else (natDigitsRev n).reverse

/-- `strconv.Itoa`: decimal rendering of an integer. -/
def itoaGo (i : Int) : GoStr :=
  if i < 0 then 45 :: itoaNat (-i).toNat else itoaNat i.toNat

/-! ## Naver adapter (`naver/provider.go`) -/

namespace Naver

/-- `naver.ProviderType = "naver"`. -/
def ProviderType : GoStr := gs "naver"

/-- `naver.UserInfoURL`. -/
def UserInfoURL : GoStr := gs "https://openapi.naver.com/v1/nid/me"

/-- `naver.AuthURL`. -/
def AuthURL : GoStr := gs "https://nid.naver.com/oauth2.0/authorize"

/-- `naver.TokenURL`. -/
def TokenURL : GoStr := gs "https://nid.naver.com/oauth2.0/token"

/-- `naver.provider`: configuration plus the injected HTTP executor
(`client *http.Client`). -/
structure Provider where
  exec : Exec
  clientID : GoStr
  clientSecret : GoStr
  redirectURL : GoStr

/-- Nested `response` object of `naver.userInfo`. -/
structure UserResponse where
  ID : GoStr
  Email : GoStr
  Name : GoStr
  ProfileImage : GoStr
  Gender : GoStr
  deriving DecidableEq

/-- `naver.userInfo`: Naver nests the user fields under `response` with a
`resultcode` sibling. -/
structure UserInfo where
  Resultcode : GoStr
  Response : UserResponse
  deriving DecidableEq

/-- `naver.tokenInfo`: the expiry arrives as a JSON *string*. -/
structure TokenInfo where
  AccessToken : GoStr
  RefreshToken : GoStr
  ExpiresIn : GoStr
  deriving DecidableEq

/-- `json.Unmarshal` into `naver.tokenInfo`. -/
def unmarshalTokenInfo (j : Option Json) : Except GoStr TokenInfo :=
  match j with
  | none => .error invalidJsonMsg
  | some (.obj fs) => do
    let a ← getStrField fs (gs "access_token")
    let r ← getStrField fs (gs "refresh_token")
    let e ← getStrField fs (gs "expires_in")
    .ok ⟨a, r, e⟩
  | some .null => .ok ⟨[], [], []⟩
  | some _ => .error (gs "json: cannot unmarshal value into struct")

/-- `json.Unmarshal` into `naver.userInfo`. -/
def unmarshalUserInfo (j : Option Json) : Except GoStr UserInfo :=
  match j with
  | none => .error invalidJsonMsg
  | some (.obj fs) => do
    let rc ← getStrField fs (gs "resultcode")
    match jsonGet fs (gs "response") with
    | none => .ok ⟨rc, ⟨[], [], [], [], []⟩⟩
    | some .null => .ok ⟨rc, ⟨[], [], [], [], []⟩⟩
    | some (.obj rs) => do
      let id ← getStrField rs (gs "id")
      let em ← getStrField rs (gs "email")
      let nm ← getStrField rs (gs "name")
      let pi_ ← getStrField rs (gs "profile_image")
      let ge ← getStrField rs (gs "gender")
      .ok ⟨rc, ⟨id, em, nm, pi_, ge⟩⟩
    | some _ => .error (gs "json: cannot unmarshal value into struct")
  | some .null => .ok ⟨[], ⟨[], [], [], [], []⟩⟩
  | some _ => .error (gs "json: cannot unmarshal value into struct")

/-- `GetAuthURL`: form pairs in the order the code calls `query.Set`
(`Encode` sorts them). -/
def authQuery (n : Provider) (state : GoStr) : List (GoStr × GoStr) :=
  [(gs "response_type", gs "code"),
   (gs "client_id", n.clientID),
   (gs "redirect_uri", n.redirectURL),
   (gs "state", state)]

/-- `naver.provider.GetAuthURL`: pure string construction (the executor
does not appear — the source performs no network call here). -/
def GetAuthURL (n : Provider) (state : GoStr) : Except GoError GoStr :=
  if n.redirectURL = [] then
    .error (WrapProviderError ProviderType .redirectURLNotSet [])
  else
    .ok (AuthURL ++ 63 :: encodeValues (authQuery n state))

/-- Form body pairs of `GetToken`, in `form.Set` order. -/
def tokenForm (n : Provider) (code : GoStr) : List (GoStr × GoStr) :=
  [(gs "grant_type", gs "authorization_code"),
   (gs "client_id", n.clientID),
   (gs "client_secret", n.clientSecret),
   (gs "code", code),
   (gs "redirect_uri", n.redirectURL)]

/-- The POST request `GetToken` builds. -/
def tokenRequest (n : Provider) (code : GoStr) : HttpRequest :=
  { method := gs "POST"
    url := TokenURL
    headers := [(gs "Content-Type", gs "application/x-www-form-urlencoded")]
    body := encodeValues (tokenForm n code) }

/-- `naver.provider.GetToken`.  (`http.NewRequestWithContext` cannot fail
on the constant URL and is not modelled as a failure source; an
`io.ReadAll` failure is folded into the transport-error branch, which
produces the same wrapped `ErrTokenRequestFailed`.) -/
def GetToken (n : Provider) (code : GoStr) : OpRes TokenInfo :=
  if code = [] then
    (.error (WrapProviderError ProviderType .emptyAuthCode []), [])
  else
    let req := tokenRequest n code
    match n.exec req with
    | .error e => (.error (WrapProviderError ProviderType .tokenRequestFailed e), [req])
    | .ok resp =>
      if resp.statusCode ≠ 200 then
        (.error (WrapProviderError ProviderType .tokenRequestFailed resp.bodyRaw), [req])
      else
        match unmarshalTokenInfo resp.bodyJson with
        | .error m => (.error (WrapProviderError ProviderType .tokenRequestFailed m), [req])
        | .ok t => (.ok t, [req])

/-- Form body pairs of `RefreshToken`, in `form.Set` order. -/
def refreshForm (n : Provider) (refreshToken : GoStr) : List (GoStr × GoStr) :=
  [(gs "grant_type", gs "refresh_token"),
   (gs "client_id", n.clientID),
   (gs "client_secret", n.clientSecret),
   (gs "refresh_token", refreshToken)]

/-- The POST request `RefreshToken` builds. -/
def refreshRequest (n : Provider) (refreshToken : GoStr) : HttpRequest :=
  { method := gs "POST"
    url := TokenURL
    headers := [(gs "Content-Type", gs "application/x-www-form-urlencoded")]
    body := encodeValues (refreshForm n refreshToken) }

/-- `naver.provider.RefreshToken`. -/
def RefreshToken (n : Provider) (refreshToken : GoStr) : OpRes TokenInfo :=
  if refreshToken = [] then
    (.error (WrapProviderError ProviderType .emptyRefreshToken []), [])
  else
    let req := refreshRequest n refreshToken
    match n.exec req with
    | .error e => (.error (WrapProviderError ProviderType .tokenRequestFailed e), [req])
    | .ok resp =>
      if resp.statusCode ≠ 200 then
        (.error (WrapProviderError ProviderType .tokenRequestFailed resp.bodyRaw), [req])
      else
        match unmarshalTokenInfo resp.bodyJson with
        | .error m => (.error (WrapProviderError ProviderType .tokenRequestFailed m), [req])
        | .ok t => (.ok t, [req])

/-- The GET request `GetUserInfo` builds. -/
def userInfoRequest (accessToken : GoStr) : HttpRequest :=
  { method := gs "GET"
    url := UserInfoURL
    headers := [(gs "Authorization", gs "Bearer " ++ accessToken)]
    body := [] }

/-- `naver.provider.GetUserInfo`: note the body is decoded without
inspecting the status code. -/
def GetUserInfo (n : Provider) (accessToken : GoStr) : OpRes UserInfo :=
  let req := userInfoRequest accessToken
  match n.exec req with
  | .error e => (.error (WrapProviderError ProviderType .userInfoRequestFailed e), [req])
  | .ok resp =>
    match unmarshalUserInfo resp.bodyJson with
    | .error m => (.error (WrapProviderError ProviderType .userInfoRequestFailed m), [req])
    | .ok u => (.ok u, [req])

/-- `naver.userInfo.GetID`. -/
def UserInfo.GetID (u : UserInfo) : GoStr := u.Response.ID

/-- `naver.userInfo.GetEmail`. -/
def UserInfo.GetEmail (u : UserInfo) : GoStr := u.Response.Email

/-- `naver.userInfo.GetName`. -/
def UserInfo.GetName (u : UserInfo) : GoStr := u.Response.Name

/-- `naver.userInfo.GetGender`. -/
def UserInfo.GetGender (u : UserInfo) : GoStr := u.Response.Gender

/-- `naver.userInfo.GetProfileImage`. -/
def UserInfo.GetProfileImage (u : UserInfo) : GoStr := u.Response.ProfileImage

/-- `naver.tokenInfo.GetAccessToken`. -/
def TokenInfo.GetAccessToken (t : TokenInfo) : GoStr := t.AccessToken

/-- `naver.tokenInfo.GetRefreshToken`. -/
def TokenInfo.GetRefreshToken (t : TokenInfo) : GoStr := t.RefreshToken

/-- `naver.tokenInfo.GetExpiry`:
`sec, _ := strconv.Atoi(n.ExpiresIn); return sec` — the parse error is
discarded and the zero value stands. -/
def TokenInfo.GetExpiry (t : TokenInfo) : Int :=
  (atoiGo t.ExpiresIn).getD 0

end Naver

/-! ## Kakao adapter (`kakao/provider.go`, current revision with
`context` and `RefreshToken`) -/

namespace Kakao

/-- `kakao.ProviderType = "kakao"`. -/
def ProviderType : GoStr := gs "kakao"

/-- `kakao.UserInfoURL`. -/
def UserInfoURL : GoStr := gs "https://kapi.kakao.com/v2/user/me"

/-- `kakao.AuthURL`. -/
def AuthURL : GoStr := gs "https://kauth.kakao.com/oauth/authorize"

/-- `kakao.TokenURL`. -/
def TokenURL : GoStr := gs "https://kauth.kakao.com/oauth/token"

/-- `kakao.provider`. -/
structure Provider where
  exec : Exec
  clientID : GoStr
  clientSecret : GoStr
  redirectURL : GoStr

/-- Nested `profile` object of `kakao_account`. -/
structure ProfileInfo where
  NickName : GoStr
  ProfileImageURL : GoStr
  deriving DecidableEq

/-- Nested `kakao_account` object of `kakao.userInfo`. -/
structure AccountInfo where
  Email : GoStr
  Profile : ProfileInfo
  Gender : GoStr
  Name : GoStr
  deriving DecidableEq

/-- `kakao.userInfo`: the subject identifier arrives as a JSON number
(`ID int`). -/
structure UserInfo where
  ID : Int
  AccountInfo : AccountInfo
  deriving DecidableEq

/-- `kakao.tokenInfo`: expiry is a native integer. -/
structure TokenInfo where
  AccessToken : GoStr
  RefreshToken : GoStr
  ExpiresIn : Int
  deriving DecidableEq

/-- `json.Unmarshal` into `kakao.tokenInfo`. -/
def unmarshalTokenInfo (j : Option Json) : Except GoStr TokenInfo :=
  match j with
  | none => .error invalidJsonMsg
  | some (.obj fs) => do
    let a ← getStrField fs (gs "access_token")
    let r ← getStrField fs (gs "refresh_token")
    let e ← getIntField fs (gs "expires_in")
    .ok ⟨a, r, e⟩
  | some .null => .ok ⟨[], [], 0⟩
  | some _ => .error (gs "json: cannot unmarshal value into struct")

/-- `json.Unmarshal` of the nested `profile` object. -/
def unmarshalProfile (j : Option Json) : Except GoStr ProfileInfo :=
  match j with
  | none => .ok ⟨[], []⟩
  | some .null => .ok ⟨[], []⟩
  | some (.obj ps) => do
    let nn ← getStrField ps (gs "nickname")
    let pu ← getStrField ps (gs "profile_image_url")
    .ok ⟨nn, pu⟩
  | some _ => .error (gs "json: cannot unmarshal value into struct")

/-- `json.Unmarshal` of the nested `kakao_account` object. -/
def unmarshalAccount (j : Option Json) : Except GoStr AccountInfo :=
  match j with
  | none => .ok ⟨[], ⟨[], []⟩, [], []⟩
  | some .null => .ok ⟨[], ⟨[], []⟩, [], []⟩
  | some (.obj as_) => do
    let em ← getStrField as_ (gs "email")
    let pr ← unmarshalProfile (jsonGet as_ (gs "profile"))
    let ge ← getStrField as_ (gs "gender")
    let nm ← getStrField as_ (gs "name")
    .ok ⟨em, pr, ge, nm⟩
  | some _ => .error (gs "json: cannot unmarshal value into struct")

/-- `json.Unmarshal` into `kakao.userInfo`. -/
def unmarshalUserInfo (j : Option Json) : Except GoStr UserInfo :=
  match j with
  | none => .error invalidJsonMsg
  | some (.obj fs) => do
    let id ← getIntField fs (gs "id")
    let ac ← unmarshalAccount (jsonGet fs (gs "kakao_account"))
    .ok ⟨id, ac⟩
  | some .null => .ok ⟨0, ⟨[], ⟨[], []⟩, [], []⟩⟩
  | some _ => .error (gs "json: cannot unmarshal value into struct")

/-- `GetAuthURL` query pairs in `query.Set` order. -/
def authQuery (k : Provider) (state : GoStr) : List (GoStr × GoStr) :=
  [(gs "client_id", k.clientID),
   (gs "redirect_uri", k.redirectURL),
   (gs "response_type", gs "code"),
   (gs "state", state)]

/-- `kakao.provider.GetAuthURL`. -/
def GetAuthURL (k : Provider) (state : GoStr) : Except GoError GoStr :=
  if k.redirectURL = [] then
    .error (WrapProviderError ProviderType .redirectURLNotSet [])
  else
    .ok (AuthURL ++ 63 :: encodeValues (authQuery k state))

/-- Form body pairs of `GetToken`, in `form.Set` order. -/
def tokenForm (k : Provider) (code : GoStr) : List (GoStr × GoStr) :=
  [(gs "grant_type", gs "authorization_code"),
   (gs "client_id", k.clientID),
   (gs "redirect_uri", k.redirectURL),
   (gs "code", code),
   (gs "client_secret", k.clientSecret)]

/-- The POST request `GetToken` builds. -/
def tokenRequest (k : Provider) (code : GoStr) : HttpRequest :=
  { method := gs "POST"
    url := TokenURL
    headers := [(gs "Content-Type", gs "application/x-www-form-urlencoded")]
    body := encodeValues (tokenForm k code) }

/-- `kakao.provider.GetToken`. -/
def GetToken (k : Provider) (code : GoStr) : OpRes TokenInfo :=
  if code = [] then
    (.error (WrapProviderError ProviderType .emptyAuthCode []), [])
  else
    let req := tokenRequest k code
    match k.exec req with
    | .error e => (.error (WrapProviderError ProviderType .tokenRequestFailed e), [req])
    | .ok resp =>
      if resp.statusCode ≠ 200 then
        (.error (WrapProviderError ProviderType .tokenRequestFailed resp.bodyRaw), [req])
      else
        match unmarshalTokenInfo resp.bodyJson with
        | .error m => (.error (WrapProviderError ProviderType .tokenRequestFailed m), [req])
        | .ok t => (.ok t, [req])

/-- Form body pairs of `RefreshToken`, in `form.Set` order. -/
def refreshForm (k : Provider) (refreshToken : GoStr) : List (GoStr × GoStr) :=
  [(gs "grant_type", gs "refresh_token"),
   (gs "client_id", k.clientID),
   (gs "refresh_token", refreshToken),
   (gs "client_secret", k.clientSecret)]

/-- The POST request `RefreshToken` builds. -/
def refreshRequest (k : Provider) (refreshToken : GoStr) : HttpRequest :=
  { method := gs "POST"
    url := TokenURL
    headers := [(gs "Content-Type", gs "application/x-www-form-urlencoded")]
    body := encodeValues (refreshForm k refreshToken) }

/-- `kakao.provider.RefreshToken`. -/
def RefreshToken (k : Provider) (refreshToken : GoStr) : OpRes TokenInfo :=
  if refreshToken = [] then
    (.error (WrapProviderError ProviderType .emptyRefreshToken []), [])
  else
    let req := refreshRequest k refreshToken
    match k.exec req with
    | .error e => (.error (WrapProviderError ProviderType .tokenRequestFailed e), [req])
    | .ok resp =>
      if resp.statusCode ≠ 200 then
        (.error (WrapProviderError ProviderType .tokenRequestFailed resp.bodyRaw), [req])
      else
        match unmarshalTokenInfo resp.bodyJson with
        | .error m => (.error (WrapProviderError ProviderType .tokenRequestFailed m), [req])
        | .ok t => (.ok t, [req])

/-- The GET request `GetUserInfo` builds. -/
def userInfoRequest (accessToken : GoStr) : HttpRequest :=
  { method := gs "GET"
    url := UserInfoURL
    headers := [(gs "Authorization", gs "Bearer " ++ accessToken)]
    body := [] }

/-- `kakao.provider.GetUserInfo`: decodes without inspecting the status
code. -/
def GetUserInfo (k : Provider) (accessToken : GoStr) : OpRes UserInfo :=
  let req := userInfoRequest accessToken
  match k.exec req with
  | .error e => (.error (WrapProviderError ProviderType .userInfoRequestFailed e), [req])
  | .ok resp =>
    match unmarshalUserInfo resp.bodyJson with
    | .error m => (.error (WrapProviderError ProviderType .userInfoRequestFailed m), [req])
    | .ok u => (.ok u, [req])

/-- `kakao.userInfo.GetID`: `strconv.Itoa(k.ID)` — the numeric subject
identifier rendered in decimal. -/
def UserInfo.GetID (u : UserInfo) : GoStr := itoaGo u.ID

/-- `kakao.userInfo.GetEmail`. -/
def UserInfo.GetEmail (u : UserInfo) : GoStr := u.AccountInfo.Email

/-- `kakao.userInfo.GetName`: the top-level `kakao_account.name`, falling
back to the nested profile nickname when it is empty. -/
def UserInfo.GetName (u : UserInfo) : GoStr :=
  if u.AccountInfo.Name = [] then u.AccountInfo.Profile.NickName
  else u.AccountInfo.Name

/-- `kakao.userInfo.GetGender`. -/
def UserInfo.GetGender (u : UserInfo) : GoStr := u.AccountInfo.Gender

/-- `kakao.userInfo.GetProfileImage`. -/
def UserInfo.GetProfileImage (u : UserInfo) : GoStr := u.AccountInfo.Profile.ProfileImageURL

/-- `kakao.tokenInfo.GetAccessToken`. -/
def TokenInfo.GetAccessToken (t : TokenInfo) : GoStr := t.AccessToken

/-- `kakao.tokenInfo.GetRefreshToken`. -/
def TokenInfo.GetRefreshToken (t : TokenInfo) : GoStr := t.RefreshToken

/-- `kakao.tokenInfo.GetExpiry`. -/
def TokenInfo.GetExpiry (t : TokenInfo) : Int := t.ExpiresIn

end Kakao

/-! ## Google adapter (`google/provider.go`) -/

namespace Google

/-- `google.ProviderType = "google"`. -/
def ProviderType : GoStr := gs "google"

/-- `google.UserInfoURL`. -/
def UserInfoURL : GoStr := gs "https://www.googleapis.com/oauth2/v2/userinfo"

/-- `google.AuthURL`. -/
def AuthURL : GoStr := gs "https://accounts.google.com/o/oauth2/v2/auth"

/-- `google.TokenURL`. -/
def TokenURL : GoStr := gs "https://oauth2.googleapis.com/token"

/-- `google.provider`. -/
structure Provider where
  exec : Exec
  clientID : GoStr
  clientSecret : GoStr
  redirectURL : GoStr

/-- `google.userInfo`. -/
structure UserInfo where
  ID : GoStr
  Email : GoStr
  Name : GoStr
  Picture : GoStr
  Locale : GoStr
  deriving DecidableEq

/-- `google.tokenInfo`: expiry is a native integer. -/
structure TokenInfo where
  AccessToken : GoStr
  ExpiresIn : Int
  RefreshToken : GoStr
  deriving DecidableEq

/-- `json.Unmarshal` into `google.tokenInfo`. -/
def unmarshalTokenInfo (j : Option Json) : Except GoStr TokenInfo :=
  match j with
  | none => .error invalidJsonMsg
  | some (.obj fs) => do
    let a ← getStrField fs (gs "access_token")
    let e ← getIntField fs (gs "expires_in")
    let r ← getStrField fs (gs "refresh_token")
    .ok ⟨a, e, r⟩
  | some .null => .ok ⟨[], 0, []⟩
  | some _ => .error (gs "json: cannot unmarshal value into struct")

/-- `json.Unmarshal` into `google.userInfo`. -/
def unmarshalUserInfo (j : Option Json) : Except GoStr UserInfo :=
  match j with
  | none => .error invalidJsonMsg
  | some (.obj fs) => do
    let id ← getStrField fs (gs "id")
    let em ← getStrField fs (gs "email")
    let nm ← getStrField fs (gs "name")
    let pc ← getStrField fs (gs "picture")
    let lo ← getStrField fs (gs "locale")
    .ok ⟨id, em, nm, pc, lo⟩
  | some .null => .ok ⟨[], [], [], [], []⟩
  | some _ => .error (gs "json: cannot unmarshal value into struct")

/-- `GetAuthURL` query pairs in `query.Set` order, including the
Google-specific extras (`scope`, `access_type`, `prompt`). -/
def authQuery (g : Provider) (state : GoStr) : List (GoStr × GoStr) :=
  [(gs "client_id", g.clientID),
   (gs "redirect_uri", g.redirectURL),
   (gs "response_type", gs "code"),
   (gs "scope", gs "openid email profile"),
   (gs "state", state),
   (gs "access_type", gs "offline"),
   (gs "prompt", gs "consent")]

/-- `google.provider.GetAuthURL`. -/
def GetAuthURL (g : Provider) (state : GoStr) : Except GoError GoStr :=
  if g.redirectURL = [] then
    .error (WrapProviderError ProviderType .redirectURLNotSet [])
  else
    .ok (AuthURL ++ 63 :: encodeValues (authQuery g state))

/-- Form body pairs of `GetAccessToken`, in `form.Set` order. -/
def tokenForm (g : Provider) (code : GoStr) : List (GoStr × GoStr) :=
  [(gs "code", code),
   (gs "client_id", g.clientID),
   (gs "client_secret", g.clientSecret),
   (gs "redirect_uri", g.redirectURL),
   (gs "grant_type", gs "authorization_code")]

/-- The POST request `GetAccessToken` builds. -/
def tokenRequest (g : Provider) (code : GoStr) : HttpRequest :=
  { method := gs "POST"
    url := TokenURL
    headers := [(gs "Content-Type", gs "application/x-www-form-urlencoded")]
    body := encodeValues (tokenForm g code) }

/-- `google.provider.GetAccessToken` (the code-for-token exchange). -/
def GetAccessToken (g : Provider) (code : GoStr) : OpRes TokenInfo :=
  if code = [] then
    (.error (WrapProviderError ProviderType .emptyAuthCode []), [])
  else
    let req := tokenRequest g code
    match g.exec req with
    | .error e => (.error (WrapProviderError ProviderType .tokenRequestFailed e), [req])
    | .ok resp =>
      if resp.statusCode ≠ 200 then
        (.error (WrapProviderError ProviderType .tokenRequestFailed resp.bodyRaw), [req])
      else
        match unmarshalTokenInfo resp.bodyJson with
        | .error m => (.error (WrapProviderError ProviderType .tokenRequestFailed m), [req])
        | .ok t => (.ok t, [req])

/-- Form body pairs of the refresh operation. -/
def refreshForm (g : Provider) (refreshToken : GoStr) : List (GoStr × GoStr) :=
  [(gs "grant_type", gs "refresh_token"),
   (gs "client_id", g.clientID),
   (gs "client_secret", g.clientSecret),
   (gs "refresh_token", refreshToken)]

/-- The POST request the refresh operation builds. -/
def refreshRequest (g : Provider) (refreshToken : GoStr) : HttpRequest :=
  { method := gs "POST"
    url := TokenURL
    headers := [(gs "Content-Type", gs "application/x-www-form-urlencoded")]
    body := encodeValues (refreshForm g refreshToken) }

/-- Modelled from the spec: the Google adapter's `RefreshToken`
implementation is not among the source files (only the `Provider`
interface that requires it and the dispatch client that calls it are);
per §4.1 it has the same failure/success shape as the code exchange but
sends `grant_type=refresh_token` with the client credentials, and fails
with `EmptyRefreshToken` on empty input with no network call. -/
def RefreshToken (g : Provider) (refreshToken : GoStr) : OpRes TokenInfo :=
  if refreshToken = [] then
    (.error (WrapProviderError ProviderType .emptyRefreshToken []), [])
  else
    let req := refreshRequest g refreshToken
    match g.exec req with
    | .error e => (.error (WrapProviderError ProviderType .tokenRequestFailed e), [req])
    | .ok resp =>
      if resp.statusCode ≠ 200 then
        (.error (WrapProviderError ProviderType .tokenRequestFailed resp.bodyRaw), [req])
      else
        match unmarshalTokenInfo resp.bodyJson with
        | .error m => (.error (WrapProviderError ProviderType .tokenRequestFailed m), [req])
        | .ok t => (.ok t, [req])

/-- The GET request `GetUserInfo` builds. -/
def userInfoRequest (accessToken : GoStr) : HttpRequest :=
  { method := gs "GET"
    url := UserInfoURL
    headers := [(gs "Authorization", gs "Bearer " ++ accessToken)]
    body := [] }

/-- `google.provider.GetUserInfo`: decodes without inspecting the status
code. -/
def GetUserInfo (g : Provider) (accessToken : GoStr) : OpRes UserInfo :=
  let req := userInfoRequest accessToken
  match g.exec req with
  | .error e => (.error (WrapProviderError ProviderType .userInfoRequestFailed e), [req])
  | .ok resp =>
    match unmarshalUserInfo resp.bodyJson with
    | .error m => (.error (WrapProviderError ProviderType .userInfoRequestFailed m), [req])
    | .ok u => (.ok u, [req])

/-- `google.userInfo.GetID`. -/
def UserInfo.GetID (u : UserInfo) : GoStr := u.ID

/-- `google.userInfo.GetEmail`. -/
def UserInfo.GetEmail (u : UserInfo) : GoStr := u.Email

/-- `google.userInfo.GetName`. -/
def UserInfo.GetName (u : UserInfo) : GoStr := u.Name

/-- `google.tokenInfo.GetAccessToken`. -/
def TokenInfo.GetAccessToken (t : TokenInfo) : GoStr := t.AccessToken

/-- `google.tokenInfo.GetRefreshToken`. -/
def TokenInfo.GetRefreshToken (t : TokenInfo) : GoStr := t.RefreshToken

/-- `google.tokenInfo.GetExpiry`. -/
def TokenInfo.GetExpiry (t : TokenInfo) : Int := t.ExpiresIn

end Google

/-! ## Dispatch client (`client.go`: interface types and `oauth2Client`) -/

/-- The normalized `UserInfo` interface view: the results of its five
accessors. -/
structure UserInfoVals where
  ID : GoStr
  Email : GoStr
  Name : GoStr
  Gender : GoStr
  ProfileImage : GoStr
  deriving DecidableEq

/-- The normalized `TokenInfo` interface view. -/
structure TokenInfoVals where
  AccessToken : GoStr
  RefreshToken : GoStr
  Expiry : Int
  deriving DecidableEq

/-- The `Provider` interface: what the dispatch client sees of an
adapter. -/
structure ProviderIface where
  GetUserInfo : GoStr → OpRes UserInfoVals
  GetAuthURL : GoStr → Except GoError GoStr
  GetToken : GoStr → OpRes TokenInfoVals
  RefreshToken : GoStr → OpRes TokenInfoVals
  GetProvider : GoStr

/-- Go-map insertion: overwrite the binding when the key is present,
append otherwise. -/
def mapInsert {α : Type} (m : List (GoStr × α)) (k : GoStr) (v : α) : List (GoStr × α) :=
  match m with
  | [] => [(k, v)]
  | kv :: rest => if kv.1 = k then (k, v) :: rest else kv :: mapInsert rest k v

/-- Go-map lookup. -/
def mapLookup {α : Type} (m : List (GoStr × α)) (k : GoStr) : Option α :=
  match m with
  | [] => none
  | kv :: rest => if kv.1 = k then some kv.2 else mapLookup rest k

/-- `oauth2Client`: the provider registry. -/
structure Oauth2Client where
  providers : List (GoStr × ProviderIface)

/-- `NewClient`: register each adapter under its `GetProvider()` key
(later registrations overwrite earlier ones, as Go map stores do). -/
def NewClient (ps : List ProviderIface) : Oauth2Client :=
  ⟨ps.foldl (fun m p => mapInsert m p.GetProvider p) []⟩

/-- `oauth2Client.RequestUserInfo`. -/
def Oauth2Client.RequestUserInfo (c : Oauth2Client) (provider accessToken : GoStr) :
    Except GoError UserInfoVals :=
  match mapLookup c.providers provider with
  | some p => (p.GetUserInfo accessToken).1
  | none => .error .providerNotSet

/-- `oauth2Client.RequestAuthURL`: an unregistered provider or a failed
URL build both yield the empty string, discarding the error. -/
def Oauth2Client.RequestAuthURL (c : Oauth2Client) (provider state : GoStr) : GoStr :=
  match mapLookup c.providers provider with
  | some p =>
    match p.GetAuthURL state with
    | .error _ => []
    | .ok u => u
  | none => []

/-- `oauth2Client.RequestToken`. -/
def Oauth2Client.RequestToken (c : Oauth2Client) (provider code : GoStr) :
    Except GoError TokenInfoVals :=
  match mapLookup c.providers provider with
  | some p => (p.GetToken code).1
  | none => .error .providerNotSet

/-- `oauth2Client.RequestRefreshToken`. -/
def Oauth2Client.RequestRefreshToken (c : Oauth2Client) (provider refreshToken : GoStr) :
    Except GoError TokenInfoVals :=
  match mapLookup c.providers provider with
  | some p => (p.RefreshToken refreshToken).1
  | none => .error .providerNotSet

/-- The set of provider identifiers registered at construction. -/
def registeredIds (ps : List ProviderIface) : List GoStr :=
  ps.map ProviderIface.GetProvider

/-! ## Lemmas about query escaping and parsing -/

theorem unhex_hexDigit : ∀ n < 16, unhex (hexDigit n) = some n := by decide

theorem unreservedByte_iff (b : Nat) :
    unreservedByte b = true ↔
      (65 ≤ b ∧ b ≤ 90) ∨ (97 ≤ b ∧ b ≤ 122) ∨ (48 ≤ b ∧ b ≤ 57) ∨
        b = 45 ∨ b = 46 ∨ b = 95 ∨ b = 126 := by
  simp [unreservedByte, Bool.or_eq_true, Bool.and_eq_true,
    decide_eq_true_eq, beq_iff_eq]
  tauto

theorem queryUnescape_cons_other (c : Nat) (rest : GoStr) (h37 : c ≠ 37) (h43 : c ≠ 43) :
    queryUnescape (c :: rest) = (queryUnescape rest).map (c :: ·) := by
  cases rest with
  | nil => simp [queryUnescape, h37, h43]
  | cons d ds =>
    cases ds with
    | nil => simp [queryUnescape, h37, h43]
    | cons e es => simp [queryUnescape, h37, h43]

theorem queryUnescape_plus (rest : GoStr) :
    queryUnescape (43 :: rest) = (queryUnescape rest).map (32 :: ·) := by
  cases rest with
  | nil => simp [queryUnescape]
  | cons d ds =>
    cases ds with
    | nil => simp [queryUnescape]
    | cons e es => simp [queryUnescape]

theorem queryUnescape_percent (h1 h2 : Nat) (rest : GoStr) (hi lo : Nat)
    (e1 : unhex h1 = some hi) (e2 : unhex h2 = some lo) :
    queryUnescape (37 :: h1 :: h2 :: rest) =
      (queryUnescape rest).map ((16 * hi + lo) :: ·) := by
  simp [queryUnescape, e1, e2]

theorem escByte_unescape (b : Nat) (hb : b < 256) (rest : GoStr) :
    queryUnescape (escByte b ++ rest) = (queryUnescape rest).map (b :: ·) := by
  unfold escByte
  split
  · rename_i hunres
    have hprops := (unreservedByte_iff b).mp hunres
    have h37 : b ≠ 37 := by omega
    have h43 : b ≠ 43 := by omega
    simpa using queryUnescape_cons_other b rest h37 h43
  · split
    · rename_i h32
      subst h32
      simpa using queryUnescape_plus rest
    · have h1 : unhex (hexDigit (b / 16 % 16)) = some (b / 16 % 16) :=
        unhex_hexDigit _ (Nat.mod_lt _ (by omega))
      have h2 : unhex (hexDigit (b % 16)) = some (b % 16) :=
        unhex_hexDigit _ (Nat.mod_lt _ (by omega))
      have hv : 16 * (b / 16 % 16) + b % 16 = b := by omega
      have := queryUnescape_percent (hexDigit (b / 16 % 16)) (hexDigit (b % 16)) rest _ _ h1 h2
      rw [hv] at this
      simpa using this

theorem queryEscape_unescape (s : GoStr) (hs : ByteStr s) :
    queryUnescape (queryEscape s) = some s := by
  induction s with
  | nil => rfl
  | cons b rest ih =>
    have hb : b < 256 := hs b (List.mem_cons_self b rest)
    have hrest : ByteStr rest := fun x hx => hs x (List.mem_cons_of_mem _ hx)
    show queryUnescape (escByte b ++ queryEscape rest) = _
    rw [escByte_unescape b hb, ih hrest]
    rfl

theorem hexDigit_range (n : Nat) (h : n < 16) :
    (48 ≤ hexDigit n ∧ hexDigit n ≤ 57) ∨ (65 ≤ hexDigit n ∧ hexDigit n ≤ 70) := by
  unfold hexDigit
  split <;> omega

/-- Escaped bytes never include `&` (38), `;` (59) or `=` (61). -/
theorem escByte_no_special (b : Nat) :
    ∀ c ∈ escByte b, c ≠ 38 ∧ c ≠ 59 ∧ c ≠ 61 := by
  intro c hc
  unfold escByte at hc
  split at hc
  · rename_i hunres
    have hprops := (unreservedByte_iff b).mp hunres
    simp only [List.mem_singleton] at hc
    omega
  · split at hc
    · simp only [List.mem_singleton] at hc
      omega
    · simp only [List.mem_cons, List.mem_singleton, List.not_mem_nil, or_false] at hc
      rcases hc with rfl | h | h
      · omega
      · subst h
        rcases hexDigit_range (b / 16 % 16) (Nat.mod_lt _ (by omega)) with h' | h' <;> omega
      · subst h
        rcases hexDigit_range (b % 16) (Nat.mod_lt _ (by omega)) with h' | h' <;> omega

theorem queryEscape_no_special (s : GoStr) :
    ∀ c ∈ queryEscape s, c ≠ 38 ∧ c ≠ 59 ∧ c ≠ 61 := by
  intro c hc
  simp only [queryEscape, List.mem_flatMap] at hc
  obtain ⟨b, _, hb⟩ := hc
  exact escByte_no_special b c hb

theorem cutOn_not_mem (sep : Nat) (s : GoStr) (h : sep ∉ s) :
    cutOn sep s = (s, [], false) := by
  induction s with
  | nil => rfl
  | cons c rest ih =>
    simp only [List.mem_cons, not_or] at h
    simp only [cutOn, if_neg (Ne.symm h.1), ih h.2]

theorem cutOn_append (sep : Nat) (a rest : GoStr) (h : sep ∉ a) :
    cutOn sep (a ++ sep :: rest) = (a, rest, true) := by
  induction a with
  | nil => simp [cutOn]
  | cons c cs ih =>
    simp only [List.mem_cons, not_or] at h
    simp only [List.cons_append, cutOn, if_neg (Ne.symm h.1), List.append_eq, ih h.2]

/-- The `k=v` fragment `url.Values.Encode` emits for one pair. -/
def encFrag (kv : GoStr × GoStr) : GoStr :=
  queryEscape kv.1 ++ 61 :: queryEscape kv.2

theorem encFrag_no_amp_semi (kv : GoStr × GoStr) :
    ∀ c ∈ encFrag kv, c ≠ 38 ∧ c ≠ 59 := by
  intro c hc
  simp only [encFrag, List.mem_append, List.mem_cons] at hc
  rcases hc with h | rfl | h
  · exact ⟨(queryEscape_no_special _ c h).1, (queryEscape_no_special _ c h).2.1⟩
  · omega
  · exact ⟨(queryEscape_no_special _ c h).1, (queryEscape_no_special _ c h).2.1⟩

theorem encFrag_ne_nil (kv : GoStr × GoStr) : encFrag kv ≠ [] := by
  intro h
  have := congrArg List.length h
  simp [encFrag] at this

/-- Processing one encoded fragment inside `parseQueryGo` recovers the
original pair. -/
theorem parseQueryGo_frag_step (kv : GoStr × GoStr)
    (hk : ByteStr kv.1) (hv : ByteStr kv.2) :
    cutOn 61 (encFrag kv) = (queryEscape kv.1, queryEscape kv.2, true) ∧
      queryUnescape (queryEscape kv.1) = some kv.1 ∧
      queryUnescape (queryEscape kv.2) = some kv.2 := by
  refine ⟨?_, queryEscape_unescape _ hk, queryEscape_unescape _ hv⟩
  exact cutOn_append 61 _ _ (fun h => ((queryEscape_no_special _ 61 h).2.2 rfl))

theorem parseQueryGo_nil : parseQueryGo [] = ([], false) := by
  simp [parseQueryGo]

theorem parseQueryGo_step (q : GoStr) (hq : q ≠ []) :
    parseQueryGo q =
      (let c := cutOn 38 q
       let piece := c.1
       let rest := c.2.1
       let tail := parseQueryGo rest
       if 59 ∈ piece then (tail.1, true)
       else if piece = [] then tail
       else
         let kv := cutOn 61 piece
         match queryUnescape kv.1, queryUnescape kv.2.1 with
         | some k, some v => ((k, v) :: tail.1, tail.2)
         | _, _ => (tail.1, true)) := by
  obtain ⟨c, cs, rfl⟩ := List.exists_cons_of_ne_nil hq
  rw [parseQueryGo]

/-- Processing the first (not last) encoded fragment of a query. -/
theorem parseQueryGo_frag_append (kv : GoStr × GoStr) (rest : GoStr)
    (hk : ByteStr kv.1) (hv : ByteStr kv.2) :
    parseQueryGo (encFrag kv ++ 38 :: rest) =
      ((kv.1, kv.2) :: (parseQueryGo rest).1, (parseQueryGo rest).2) := by
  have hne : encFrag kv ++ 38 :: rest ≠ [] := by
    simp
  have h38 : (38 : Nat) ∉ encFrag kv := fun h => (encFrag_no_amp_semi kv 38 h).1 rfl
  have h59 : (59 : Nat) ∉ encFrag kv := fun h => (encFrag_no_amp_semi kv 59 h).2 rfl
  obtain ⟨hcut, huk, huv⟩ := parseQueryGo_frag_step kv hk hv
  rw [parseQueryGo_step _ hne]
  simp only [cutOn_append 38 _ _ h38, if_neg h59, if_neg (encFrag_ne_nil kv), hcut, huk, huv]

/-- Processing the last encoded fragment of a query. -/
theorem parseQueryGo_frag_last (kv : GoStr × GoStr)
    (hk : ByteStr kv.1) (hv : ByteStr kv.2) :
    parseQueryGo (encFrag kv) = ([(kv.1, kv.2)], false) := by
  have h38 : (38 : Nat) ∉ encFrag kv := fun h => (encFrag_no_amp_semi kv 38 h).1 rfl
  have h59 : (59 : Nat) ∉ encFrag kv := fun h => (encFrag_no_amp_semi kv 59 h).2 rfl
  obtain ⟨hcut, huk, huv⟩ := parseQueryGo_frag_step kv hk hv
  rw [parseQueryGo_step _ (encFrag_ne_nil kv)]
  simp only [cutOn_not_mem 38 _ h38, if_neg h59, if_neg (encFrag_ne_nil kv), hcut, huk, huv,
    parseQueryGo_nil]

/-- Parsing the joined fragments recovers the pairs in order with no
error. -/
theorem parseQueryGo_joinAmp (pairs : List (GoStr × GoStr))
    (h : ∀ kv ∈ pairs, ByteStr kv.1 ∧ ByteStr kv.2) :
    parseQueryGo (joinAmp (pairs.map encFrag)) = (pairs, false) := by
  induction pairs with
  | nil => exact parseQueryGo_nil
  | cons kv rest ih =>
    have hkv := h kv (List.mem_cons_self kv rest)
    cases rest with
    | nil =>
      show parseQueryGo (joinAmp [encFrag kv]) = _
      rw [joinAmp]
      exact parseQueryGo_frag_last kv hkv.1 hkv.2
    | cons kv2 rest2 =>
      show parseQueryGo (joinAmp (encFrag kv :: encFrag kv2 :: rest2.map encFrag)) = _
      rw [joinAmp, parseQueryGo_frag_append kv _ hkv.1 hkv.2]
      have ih' := ih (fun x hx => h x (List.mem_cons_of_mem _ hx))
      rw [show joinAmp (encFrag kv2 :: rest2.map encFrag)
            = joinAmp ((kv2 :: rest2).map encFrag) from rfl, ih']

theorem mem_insertKV (x y : GoStr × GoStr) (l : List (GoStr × GoStr)) :
    y ∈ insertKV x l ↔ y = x ∨ y ∈ l := by
  induction l with
  | nil => simp [insertKV]
  | cons z zs ih =>
    simp only [insertKV]
    split
    · simp [or_comm, or_assoc, eq_comm]
    · simp only [List.mem_cons, ih]
      tauto

theorem mem_sortKVs (y : GoStr × GoStr) (l : List (GoStr × GoStr)) :
    y ∈ sortKVs l ↔ y ∈ l := by
  induction l with
  | nil => simp [sortKVs]
  | cons z zs ih =>
    simp only [sortKVs, mem_insertKV, ih, List.mem_cons, eq_comm]

theorem goStrLe_total (a b : GoStr) : goStrLe a b = true ∨ goStrLe b a = true := by
  induction a generalizing b with
  | nil => left; rfl
  | cons x xs ih =>
    cases b with
    | nil => right; rfl
    | cons y ys =>
      simp only [goStrLe]
      rcases Nat.lt_trichotomy x y with h | h | h
      · left
        rw [if_pos h]
      · subst h
        rcases ih ys with h' | h' <;> simp [h', lt_irrefl]
      · right
        rw [if_pos h]

/-- The keys of a query string, in order. -/
def keysOf (l : List (GoStr × GoStr)) : List GoStr := l.map Prod.fst

/-- Adjacent keys appear in bytewise-lexicographic order. -/
def KeySorted (l : List (GoStr × GoStr)) : Prop :=
  List.Chain' (fun a b => goStrLe a.1 b.1 = true) l

theorem insertKV_head (x : GoStr × GoStr) (l : List (GoStr × GoStr)) :
    ∃ h t, insertKV x l = h :: t ∧ (h = x ∨ l.head? = some h) := by
  cases l with
  | nil => exact ⟨x, [], rfl, Or.inl rfl⟩
  | cons y ys =>
    simp only [insertKV]
    split
    · exact ⟨x, y :: ys, rfl, Or.inl rfl⟩
    · exact ⟨y, insertKV x ys, rfl, Or.inr rfl⟩

theorem keySorted_insertKV (x : GoStr × GoStr) (l : List (GoStr × GoStr))
    (hl : KeySorted l) : KeySorted (insertKV x l) := by
  induction l with
  | nil => simp [insertKV, KeySorted]
  | cons y ys ih =>
    simp only [KeySorted, insertKV]
    have hys : KeySorted ys := (List.chain'_cons'.mp hl).2
    split
    · rename_i hle
      exact List.chain'_cons'.mpr ⟨fun z hz => by
        rw [List.head?_cons, Option.mem_some_iff] at hz
        subst hz
        exact hle, hl⟩
    · rename_i hnle
      have hxy : goStrLe y.1 x.1 = true := by
        rcases goStrLe_total x.1 y.1 with h | h
        · exact absurd h hnle
        · exact h
      refine List.chain'_cons'.mpr ⟨?_, ih hys⟩
      intro z hz
      obtain ⟨h, t, heq, hh⟩ := insertKV_head x ys
      rw [heq, List.head?_cons, Option.mem_some_iff] at hz
      subst hz
      rcases hh with rfl | hh
      · exact hxy
      · exact (List.chain'_cons'.mp hl).1 _ hh

theorem keySorted_sortKVs (l : List (GoStr × GoStr)) : KeySorted (sortKVs l) := by
  induction l with
  | nil => simp [sortKVs, KeySorted]
  | cons x xs ih => exact keySorted_insertKV x (sortKVs xs) ih

/-- `url.Values.Encode` written with the fragment function. -/
theorem encodeValues_eq (kvs : List (GoStr × GoStr)) :
    encodeValues kvs = joinAmp ((sortKVs kvs).map encFrag) := rfl

/-- Parsing an encoded query recovers exactly the key-sorted pairs, with
no parse error. -/
theorem parse_encodeValues (kvs : List (GoStr × GoStr))
    (h : ∀ kv ∈ kvs, ByteStr kv.1 ∧ ByteStr kv.2) :
    parseQueryGo (encodeValues kvs) = (sortKVs kvs, false) := by
  rw [encodeValues_eq]
  exact parseQueryGo_joinAmp (sortKVs kvs)
    (fun kv hkv => h kv ((mem_sortKVs kv kvs).mp hkv))

theorem assocGet_insertKV (k : GoStr) (x : GoStr × GoStr) (l : List (GoStr × GoStr))
    (hx : x.1 ∉ keysOf l) :
    assocGet k (insertKV x l) = if x.1 = k then some x.2 else assocGet k l := by
  induction l with
  | nil => simp [insertKV, assocGet]
  | cons y ys ih =>
    simp only [keysOf, List.map_cons, List.mem_cons, not_or] at hx
    simp only [insertKV]
    split
    · simp only [assocGet]
    · simp only [assocGet]
      by_cases hy : y.1 = k
      · have : ¬(x.1 = k) := fun hxk => hx.1 (hxk.trans hy.symm)
        simp [hy, this]
      · simp only [if_neg hy]
        exact ih hx.2

/-- With pairwise-distinct keys, first-match lookup is unchanged by the
key sort `Encode` performs. -/
theorem assocGet_sortKVs (k : GoStr) (kvs : List (GoStr × GoStr))
    (h : (keysOf kvs).Nodup) :
    assocGet k (sortKVs kvs) = assocGet k kvs := by
  induction kvs with
  | nil => rfl
  | cons x xs ih =>
    simp only [keysOf, List.map_cons, List.nodup_cons] at h
    have hx : x.1 ∉ keysOf (sortKVs xs) := by
      intro hmem
      simp only [keysOf, List.mem_map] at hmem
      obtain ⟨kv, hkv, hfst⟩ := hmem
      exact h.1 (by
        simp only [keysOf, List.mem_map]
        exact ⟨kv, (mem_sortKVs kv xs).mp hkv, hfst⟩)
    show assocGet k (insertKV x (sortKVs xs)) = _
    rw [assocGet_insertKV k x _ hx, ih h.2]
    simp only [assocGet]

/-! ## Lemmas about errors and the registry -/

theorem errorsIs_self (e : GoError) : errorsIs e e = true := by
  unfold errorsIs
  simp

theorem errorf_ne_wrapped (m : GoStr) (b : GoError) : GoError.errorf m b ≠ b := by
  intro heq
  have h2 := congrArg sizeOf heq
  simp at h2

theorem errorsIs_wrapProviderError (p : GoStr) (base : GoError) (ctx : GoStr) :
    errorsIs (WrapProviderError p base ctx) base = true := by
  unfold WrapProviderError errorsIs
  split
  · rfl
  · exact errorsIs_self base

/-- An operation failed (Go: returned a non-nil error) whose `errors.Is`
chain matches the taxonomy sentinel `base`. -/
def failsWith {α : Type} (r : Except GoError α) (base : GoError) : Prop :=
  ∃ e, r = .error e ∧ errorsIs e base = true

/-- `sub` occurs contiguously inside `s`. -/
def containsBytes (sub s : GoStr) : Prop :=
  ∃ a b, s = a ++ (sub ++ b)

/-- As `failsWith`, and the error message additionally contains `ctx`
(the raw-body / underlying-error context). -/
def failsWithCtx {α : Type} (r : Except GoError α) (base : GoError) (ctx : GoStr) : Prop :=
  ∃ e, r = .error e ∧ errorsIs e base = true ∧ containsBytes ctx (errMessage e)

theorem failsWith_wrap {α : Type} (p : GoStr) (base : GoError) (ctx : GoStr) :
    failsWith (α := α) (.error (WrapProviderError p base ctx)) base :=
  ⟨_, rfl, errorsIs_wrapProviderError p base ctx⟩

theorem wrap_message_contains (p : GoStr) (base : GoError) (ctx : GoStr) :
    containsBytes ctx (errMessage (WrapProviderError p base ctx)) := by
  refine ⟨p ++ gs " provider: " ++ errMessage base ++ gs ": ", [], ?_⟩
  simp [WrapProviderError, errMessage]

theorem failsWithCtx_wrap {α : Type} (p : GoStr) (base : GoError) (ctx : GoStr) :
    failsWithCtx (α := α) (.error (WrapProviderError p base ctx)) base ctx :=
  ⟨_, rfl, errorsIs_wrapProviderError p base ctx, wrap_message_contains p base ctx⟩

theorem mapLookup_mapInsert {α : Type} (m : List (GoStr × α)) (k P : GoStr) (v : α) :
    mapLookup (mapInsert m k v) P = if k = P then some v else mapLookup m P := by
  induction m with
  | nil => simp [mapInsert, mapLookup]
  | cons kv rest ih =>
    obtain ⟨k1, v1⟩ := kv
    simp only [mapInsert]
    by_cases hk : k1 = k
    · subst hk
      simp only [if_pos rfl, mapLookup]
      by_cases hkP : k1 = P
      · simp [hkP]
      · simp [hkP]
    · rw [if_neg (by simpa using hk)]
      simp only [mapLookup, ih]
      by_cases hP : k1 = P
      · have hkP : ¬(k = P) := fun h => hk (by rw [h, hP])
        simp [hP, hkP]
      · simp [hP]

theorem mapLookup_newClient_aux (P : GoStr) :
    ∀ (ps : List ProviderIface) (m : List (GoStr × ProviderIface)),
      P ∉ ps.map ProviderIface.GetProvider → mapLookup m P = none →
      mapLookup (ps.foldl (fun m p => mapInsert m p.GetProvider p) m) P = none := by
  intro ps
  induction ps with
  | nil => intro m _ hm; exact hm
  | cons p rest ih =>
    intro m hP hm
    simp only [List.map_cons, List.mem_cons, not_or] at hP
    simp only [List.foldl_cons]
    exact ih _ hP.2 (by rw [mapLookup_mapInsert, if_neg (fun h => hP.1 h.symm)]; exact hm)

/-- An identifier absent from the registered list is absent from the
registry `NewClient` builds. -/
theorem mapLookup_newClient_none (ps : List ProviderIface) (P : GoStr)
    (h : P ∉ registeredIds ps) : mapLookup (NewClient ps).providers P = none :=
  mapLookup_newClient_aux P ps [] h rfl

/-- C1: for every provider identifier `P` not registered at client
construction and all inputs, `RequestToken`, `RequestRefreshToken` and
`RequestUserInfo` fail with the `ProviderNotSet` error, while
`RequestAuthURL` returns the empty string and surfaces no error. -/
theorem claim_C1 (ps : List ProviderIface) (P : GoStr)
    (hP : P ∉ registeredIds ps) (code refreshToken accessToken state : GoStr) :
    failsWith ((NewClient ps).RequestToken P code) .providerNotSet ∧
    failsWith ((NewClient ps).RequestRefreshToken P refreshToken) .providerNotSet ∧
    failsWith ((NewClient ps).RequestUserInfo P accessToken) .providerNotSet ∧
    (NewClient ps).RequestAuthURL P state = [] := by
  have hnone := mapLookup_newClient_none ps P hP
  refine ⟨⟨.providerNotSet, ?_, errorsIs_self _⟩,
    ⟨.providerNotSet, ?_, errorsIs_self _⟩,
    ⟨.providerNotSet, ?_, errorsIs_self _⟩, ?_⟩ <;>
    simp [Oauth2Client.RequestToken, Oauth2Client.RequestRefreshToken,
      Oauth2Client.RequestUserInfo, Oauth2Client.RequestAuthURL, hnone]

/-- Witness for C1 at a concrete empty registry and identifier
`"google"`. -/
theorem claim_C1_witness :
    failsWith ((NewClient []).RequestToken (gs "google") (gs "c")) .providerNotSet ∧
    failsWith ((NewClient []).RequestRefreshToken (gs "google") (gs "r")) .providerNotSet ∧
    failsWith ((NewClient []).RequestUserInfo (gs "google") (gs "a")) .providerNotSet ∧
    (NewClient []).RequestAuthURL (gs "google") (gs "s") = [] :=
  claim_C1 [] (gs "google") (by simp [registeredIds]) (gs "c") (gs "r") (gs "a") (gs "s")

/-! ## Case analyses of the six token operations -/

/-- A constant HTTP executor (a mock transport returning the same result
for every request). -/
def constExec (r : Except GoStr HttpResponse) : Exec := fun _ => r

theorem naver_GetToken_empty (p : Naver.Provider) :
    Naver.GetToken p [] =
      (.error (WrapProviderError Naver.ProviderType .emptyAuthCode []), []) := by
  simp [Naver.GetToken]

theorem naver_GetToken_non200 (p : Naver.Provider) (input : GoStr) (hin : input ≠ [])
    (resp : HttpResponse) (hst : resp.statusCode ≠ 200)
    (hex : p.exec = constExec (.ok resp)) :
    Naver.GetToken p input =
      (.error (WrapProviderError Naver.ProviderType .tokenRequestFailed resp.bodyRaw),
        [Naver.tokenRequest p input]) := by
  simp [Naver.GetToken, hex, constExec, hin, hst]

theorem naver_GetToken_ok (p : Naver.Provider) (input : GoStr) (hin : input ≠ [])
    (resp : HttpResponse) (hst : resp.statusCode = 200)
    (t : Naver.TokenInfo) (hdec : Naver.unmarshalTokenInfo resp.bodyJson = .ok t)
    (hex : p.exec = constExec (.ok resp)) :
    Naver.GetToken p input = (.ok t, [Naver.tokenRequest p input]) := by
  simp [Naver.GetToken, hex, constExec, hin, hst, hdec]

theorem naver_GetToken_transport (p : Naver.Provider) (input : GoStr) (hin : input ≠ [])
    (msg : GoStr) (hex : p.exec = constExec (.error msg)) :
    Naver.GetToken p input =
      (.error (WrapProviderError Naver.ProviderType .tokenRequestFailed msg),
        [Naver.tokenRequest p input]) := by
  simp [Naver.GetToken, hex, constExec, hin]

theorem naver_RefreshToken_empty (p : Naver.Provider) :
    Naver.RefreshToken p [] =
      (.error (WrapProviderError Naver.ProviderType .emptyRefreshToken []), []) := by
  simp [Naver.RefreshToken]

theorem naver_RefreshToken_non200 (p : Naver.Provider) (input : GoStr) (hin : input ≠ [])
    (resp : HttpResponse) (hst : resp.statusCode ≠ 200)
    (hex : p.exec = constExec (.ok resp)) :
    Naver.RefreshToken p input =
      (.error (WrapProviderError Naver.ProviderType .tokenRequestFailed resp.bodyRaw),
        [Naver.refreshRequest p input]) := by
  simp [Naver.RefreshToken, hex, constExec, hin, hst]

theorem naver_RefreshToken_ok (p : Naver.Provider) (input : GoStr) (hin : input ≠ [])
    (resp : HttpResponse) (hst : resp.statusCode = 200)
    (t : Naver.TokenInfo) (hdec : Naver.unmarshalTokenInfo resp.bodyJson = .ok t)
    (hex : p.exec = constExec (.ok resp)) :
    Naver.RefreshToken p input = (.ok t, [Naver.refreshRequest p input]) := by
  simp [Naver.RefreshToken, hex, constExec, hin, hst, hdec]

theorem naver_RefreshToken_transport (p : Naver.Provider) (input : GoStr) (hin : input ≠ [])
    (msg : GoStr) (hex : p.exec = constExec (.error msg)) :
    Naver.RefreshToken p input =
      (.error (WrapProviderError Naver.ProviderType .tokenRequestFailed msg),
        [Naver.refreshRequest p input]) := by
  simp [Naver.RefreshToken, hex, constExec, hin]

theorem kakao_GetToken_empty (p : Kakao.Provider) :
    Kakao.GetToken p [] =
      (.error (WrapProviderError Kakao.ProviderType .emptyAuthCode []), []) := by
  simp [Kakao.GetToken]

theorem kakao_GetToken_non200 (p : Kakao.Provider) (input : GoStr) (hin : input ≠ [])
    (resp : HttpResponse) (hst : resp.statusCode ≠ 200)
    (hex : p.exec = constExec (.ok resp)) :
    Kakao.GetToken p input =
      (.error (WrapProviderError Kakao.ProviderType .tokenRequestFailed resp.bodyRaw),
        [Kakao.tokenRequest p input]) := by
  simp [Kakao.GetToken, hex, constExec, hin, hst]

theorem kakao_GetToken_ok (p : Kakao.Provider) (input : GoStr) (hin : input ≠ [])
    (resp : HttpResponse) (hst : resp.statusCode = 200)
    (t : Kakao.TokenInfo) (hdec : Kakao.unmarshalTokenInfo resp.bodyJson = .ok t)
    (hex : p.exec = constExec (.ok resp)) :
    Kakao.GetToken p input = (.ok t, [Kakao.tokenRequest p input]) := by
  simp [Kakao.GetToken, hex, constExec, hin, hst, hdec]

theorem kakao_GetToken_transport (p : Kakao.Provider) (input : GoStr) (hin : input ≠ [])
    (msg : GoStr) (hex : p.exec = constExec (.error msg)) :
    Kakao.GetToken p input =
      (.error (WrapProviderError Kakao.ProviderType .tokenRequestFailed msg),
        [Kakao.tokenRequest p input]) := by
  simp [Kakao.GetToken, hex, constExec, hin]

theorem kakao_RefreshToken_empty (p : Kakao.Provider) :
    Kakao.RefreshToken p [] =
      (.error (WrapProviderError Kakao.ProviderType .emptyRefreshToken []), []) := by
  simp [Kakao.RefreshToken]

theorem kakao_RefreshToken_non200 (p : Kakao.Provider) (input : GoStr) (hin : input ≠ [])
    (resp : HttpResponse) (hst : resp.statusCode ≠ 200)
    (hex : p.exec = constExec (.ok resp)) :
    Kakao.RefreshToken p input =
      (.error (WrapProviderError Kakao.ProviderType .tokenRequestFailed resp.bodyRaw),
        [Kakao.refreshRequest p input]) := by
  simp [Kakao.RefreshToken, hex, constExec, hin, hst]

theorem kakao_RefreshToken_ok (p : Kakao.Provider) (input : GoStr) (hin : input ≠ [])
    (resp : HttpResponse) (hst : resp.statusCode = 200)
    (t : Kakao.TokenInfo) (hdec : Kakao.unmarshalTokenInfo resp.bodyJson = .ok t)
    (hex : p.exec = constExec (.ok resp)) :
    Kakao.RefreshToken p input = (.ok t, [Kakao.refreshRequest p input]) := by
  simp [Kakao.RefreshToken, hex, constExec, hin, hst, hdec]

theorem kakao_RefreshToken_transport (p : Kakao.Provider) (input : GoStr) (hin : input ≠ [])
    (msg : GoStr) (hex : p.exec = constExec (.error msg)) :
    Kakao.RefreshToken p input =
      (.error (WrapProviderError Kakao.ProviderType .tokenRequestFailed msg),
        [Kakao.refreshRequest p input]) := by
  simp [Kakao.RefreshToken, hex, constExec, hin]

theorem google_GetAccessToken_empty (p : Google.Provider) :
    Google.GetAccessToken p [] =
      (.error (WrapProviderError Google.ProviderType .emptyAuthCode []), []) := by
  simp [Google.GetAccessToken]

theorem google_GetAccessToken_non200 (p : Google.Provider) (input : GoStr) (hin : input ≠ [])
    (resp : HttpResponse) (hst : resp.statusCode ≠ 200)
    (hex : p.exec = constExec (.ok resp)) :
    Google.GetAccessToken p input =
      (.error (WrapProviderError Google.ProviderType .tokenRequestFailed resp.bodyRaw),
        [Google.tokenRequest p input]) := by
  simp [Google.GetAccessToken, hex, constExec, hin, hst]

theorem google_GetAccessToken_ok (p : Google.Provider) (input : GoStr) (hin : input ≠ [])
    (resp : HttpResponse) (hst : resp.statusCode = 200)
    (t : Google.TokenInfo) (hdec : Google.unmarshalTokenInfo resp.bodyJson = .ok t)
    (hex : p.exec = constExec (.ok resp)) :
    Google.GetAccessToken p input = (.ok t, [Google.tokenRequest p input]) := by
  simp [Google.GetAccessToken, hex, constExec, hin, hst, hdec]

theorem google_GetAccessToken_transport (p : Google.Provider) (input : GoStr) (hin : input ≠ [])
    (msg : GoStr) (hex : p.exec = constExec (.error msg)) :
    Google.GetAccessToken p input =
      (.error (WrapProviderError Google.ProviderType .tokenRequestFailed msg),
        [Google.tokenRequest p input]) := by
  simp [Google.GetAccessToken, hex, constExec, hin]

theorem google_RefreshToken_empty (p : Google.Provider) :
    Google.RefreshToken p [] =
      (.error (WrapProviderError Google.ProviderType .emptyRefreshToken []), []) := by
  simp [Google.RefreshToken]

theorem google_RefreshToken_non200 (p : Google.Provider) (input : GoStr) (hin : input ≠ [])
    (resp : HttpResponse) (hst : resp.statusCode ≠ 200)
    (hex : p.exec = constExec (.ok resp)) :
    Google.RefreshToken p input =
      (.error (WrapProviderError Google.ProviderType .tokenRequestFailed resp.bodyRaw),
        [Google.refreshRequest p input]) := by
  simp [Google.RefreshToken, hex, constExec, hin, hst]

theorem google_RefreshToken_ok (p : Google.Provider) (input : GoStr) (hin : input ≠ [])
    (resp : HttpResponse) (hst : resp.statusCode = 200)
    (t : Google.TokenInfo) (hdec : Google.unmarshalTokenInfo resp.bodyJson = .ok t)
    (hex : p.exec = constExec (.ok resp)) :
    Google.RefreshToken p input = (.ok t, [Google.refreshRequest p input]) := by
  simp [Google.RefreshToken, hex, constExec, hin, hst, hdec]

theorem google_RefreshToken_transport (p : Google.Provider) (input : GoStr) (hin : input ≠ [])
    (msg : GoStr) (hex : p.exec = constExec (.error msg)) :
    Google.RefreshToken p input =
      (.error (WrapProviderError Google.ProviderType .tokenRequestFailed msg),
        [Google.refreshRequest p input]) := by
  simp [Google.RefreshToken, hex, constExec, hin]

/-! ## Concrete fixtures for witnesses -/

/-- HTTP 500 with body `"rate limited"` (not valid JSON). -/
def respBad : HttpResponse := ⟨500, gs "rate limited", none⟩

/-- HTTP 200 with the canned Naver token payload
`{"access_token":"AT","refresh_token":"RT","expires_in":"3600"}`. -/
def respOkNaverTok : HttpResponse :=
  ⟨200, gs "naver token body",
    some (.obj [(gs "access_token", .str (gs "AT")),
                (gs "refresh_token", .str (gs "RT")),
                (gs "expires_in", .str (gs "3600"))])⟩

/-- HTTP 200 with a Kakao token payload (integer expiry). -/
def respOkKakaoTok : HttpResponse :=
  ⟨200, gs "kakao token body",
    some (.obj [(gs "access_token", .str (gs "AT")),
                (gs "refresh_token", .str (gs "RT")),
                (gs "expires_in", .num 3600)])⟩

/-- HTTP 200 with a Google token payload (integer expiry). -/
def respOkGoogleTok : HttpResponse :=
  ⟨200, gs "google token body",
    some (.obj [(gs "access_token", .str (gs "AT")),
                (gs "refresh_token", .str (gs "RT")),
                (gs "expires_in", .num 3600)])⟩

/-- Naver adapter whose transport always answers HTTP 500
`"rate limited"`. -/
def naverBadP : Naver.Provider := ⟨constExec (.ok respBad), gs "cid", gs "sec", gs "http://cb"⟩

/-- Naver adapter whose transport always answers the token payload. -/
def naverOkTokP : Naver.Provider :=
  ⟨constExec (.ok respOkNaverTok), gs "cid", gs "sec", gs "http://cb"⟩

/-- Kakao adapter with the failing transport. -/
def kakaoBadP : Kakao.Provider := ⟨constExec (.ok respBad), gs "cid", gs "sec", gs "http://cb"⟩

/-- Kakao adapter with the token-payload transport. -/
def kakaoOkTokP : Kakao.Provider :=
  ⟨constExec (.ok respOkKakaoTok), gs "cid", gs "sec", gs "http://cb"⟩

/-- Google adapter with the failing transport. -/
def googleBadP : Google.Provider := ⟨constExec (.ok respBad), gs "cid", gs "sec", gs "http://cb"⟩

/-- Google adapter with the token-payload transport. -/
def googleOkTokP : Google.Provider :=
  ⟨constExec (.ok respOkGoogleTok), gs "cid", gs "sec", gs "http://cb"⟩

/-- C2: for every adapter, the code exchange and the token refresh obey
the raises-iff contract: an empty input fails with the corresponding
empty-input error with zero executor calls; a non-200 response fails
with `TokenRequestFailed` whose message contains the raw response body;
a 200 response whose body decodes as the provider's token JSON
succeeds. -/
theorem claim_C2
    (n1 n2 n3 : Naver.Provider) (k1 k2 k3 : Kakao.Provider) (g1 g2 g3 : Google.Provider)
    (code rt : GoStr) (hcode : code ≠ []) (hrt : rt ≠ [])
    (bad : HttpResponse) (hbadStatus : bad.statusCode ≠ 200)
    (okN okK okG : HttpResponse)
    (hokN : okN.statusCode = 200) (hokK : okK.statusCode = 200) (hokG : okG.statusCode = 200)
    (tN : Naver.TokenInfo) (tK : Kakao.TokenInfo) (tG : Google.TokenInfo)
    (hdN : Naver.unmarshalTokenInfo okN.bodyJson = .ok tN)
    (hdK : Kakao.unmarshalTokenInfo okK.bodyJson = .ok tK)
    (hdG : Google.unmarshalTokenInfo okG.bodyJson = .ok tG)
    (hn2 : n2.exec = constExec (.ok bad)) (hn3 : n3.exec = constExec (.ok okN))
    (hk2 : k2.exec = constExec (.ok bad)) (hk3 : k3.exec = constExec (.ok okK))
    (hg2 : g2.exec = constExec (.ok bad)) (hg3 : g3.exec = constExec (.ok okG)) :
    ((failsWith (Naver.GetToken n1 []).1 .emptyAuthCode ∧ (Naver.GetToken n1 []).2 = []) ∧
     (failsWith (Naver.RefreshToken n1 []).1 .emptyRefreshToken ∧ (Naver.RefreshToken n1 []).2 = []) ∧
     (failsWith (Kakao.GetToken k1 []).1 .emptyAuthCode ∧ (Kakao.GetToken k1 []).2 = []) ∧
     (failsWith (Kakao.RefreshToken k1 []).1 .emptyRefreshToken ∧ (Kakao.RefreshToken k1 []).2 = []) ∧
     (failsWith (Google.GetAccessToken g1 []).1 .emptyAuthCode ∧ (Google.GetAccessToken g1 []).2 = []) ∧
     (failsWith (Google.RefreshToken g1 []).1 .emptyRefreshToken ∧ (Google.RefreshToken g1 []).2 = [])) ∧
    (failsWithCtx (Naver.GetToken n2 code).1 .tokenRequestFailed bad.bodyRaw ∧
     failsWithCtx (Naver.RefreshToken n2 rt).1 .tokenRequestFailed bad.bodyRaw ∧
     failsWithCtx (Kakao.GetToken k2 code).1 .tokenRequestFailed bad.bodyRaw ∧
     failsWithCtx (Kakao.RefreshToken k2 rt).1 .tokenRequestFailed bad.bodyRaw ∧
     failsWithCtx (Google.GetAccessToken g2 code).1 .tokenRequestFailed bad.bodyRaw ∧
     failsWithCtx (Google.RefreshToken g2 rt).1 .tokenRequestFailed bad.bodyRaw) ∧
    ((Naver.GetToken n3 code).1 = .ok tN ∧
     (Naver.RefreshToken n3 rt).1 = .ok tN ∧
     (Kakao.GetToken k3 code).1 = .ok tK ∧
     (Kakao.RefreshToken k3 rt).1 = .ok tK ∧
     (Google.GetAccessToken g3 code).1 = .ok tG ∧
     (Google.RefreshToken g3 rt).1 = .ok tG) := by
  refine ⟨⟨?_, ?_, ?_, ?_, ?_, ?_⟩,
    ⟨?_, ?_, ?_, ?_, ?_, ?_⟩,
    ⟨?_, ?_, ?_, ?_, ?_, ?_⟩⟩
  · exact ⟨by rw [naver_GetToken_empty]; exact failsWith_wrap _ _ _, by rw [naver_GetToken_empty]⟩
  · exact ⟨by rw [naver_RefreshToken_empty]; exact failsWith_wrap _ _ _, by rw [naver_RefreshToken_empty]⟩
  · exact ⟨by rw [kakao_GetToken_empty]; exact failsWith_wrap _ _ _, by rw [kakao_GetToken_empty]⟩
  · exact ⟨by rw [kakao_RefreshToken_empty]; exact failsWith_wrap _ _ _, by rw [kakao_RefreshToken_empty]⟩
  · exact ⟨by rw [google_GetAccessToken_empty]; exact failsWith_wrap _ _ _, by rw [google_GetAccessToken_empty]⟩
  · exact ⟨by rw [google_RefreshToken_empty]; exact failsWith_wrap _ _ _, by rw [google_RefreshToken_empty]⟩
  · exact (by rw [naver_GetToken_non200 n2 code hcode bad hbadStatus hn2]; exact failsWithCtx_wrap _ _ _)
  · exact (by rw [naver_RefreshToken_non200 n2 rt hrt bad hbadStatus hn2]; exact failsWithCtx_wrap _ _ _)
  · exact (by rw [kakao_GetToken_non200 k2 code hcode bad hbadStatus hk2]; exact failsWithCtx_wrap _ _ _)
  · exact (by rw [kakao_RefreshToken_non200 k2 rt hrt bad hbadStatus hk2]; exact failsWithCtx_wrap _ _ _)
  · exact (by rw [google_GetAccessToken_non200 g2 code hcode bad hbadStatus hg2]; exact failsWithCtx_wrap _ _ _)
  · exact (by rw [google_RefreshToken_non200 g2 rt hrt bad hbadStatus hg2]; exact failsWithCtx_wrap _ _ _)
  · exact (by rw [naver_GetToken_ok n3 code hcode okN hokN tN hdN hn3])
  · exact (by rw [naver_RefreshToken_ok n3 rt hrt okN hokN tN hdN hn3])
  · exact (by rw [kakao_GetToken_ok k3 code hcode okK hokK tK hdK hk3])
  · exact (by rw [kakao_RefreshToken_ok k3 rt hrt okK hokK tK hdK hk3])
  · exact (by rw [google_GetAccessToken_ok g3 code hcode okG hokG tG hdG hg3])
  · exact (by rw [google_RefreshToken_ok g3 rt hrt okG hokG tG hdG hg3])

/-- Witness for C2: concrete adapters, the HTTP-500 `"rate limited"`
scenario and a decodable 200 payload. -/
theorem claim_C2_witness :
    (failsWith (Naver.GetToken naverBadP []).1 .emptyAuthCode ∧
      (Naver.GetToken naverBadP []).2 = []) ∧
    failsWithCtx (Naver.GetToken naverBadP (gs "code")).1 .tokenRequestFailed
      (gs "rate limited") ∧
    (Naver.GetToken naverOkTokP (gs "code")).1 =
      .ok ⟨gs "AT", gs "RT", gs "3600"⟩ := by
  have h := claim_C2 naverBadP naverBadP naverOkTokP kakaoBadP kakaoBadP kakaoOkTokP
    googleBadP googleBadP googleOkTokP (gs "code") (gs "rt") (by decide) (by decide)
    respBad (by decide) respOkNaverTok respOkKakaoTok respOkGoogleTok rfl rfl rfl
    ⟨gs "AT", gs "RT", gs "3600"⟩ ⟨gs "AT", gs "RT", 3600⟩ ⟨gs "AT", 3600, gs "RT"⟩
    rfl rfl rfl rfl rfl rfl rfl rfl rfl
  exact ⟨h.1.1, h.2.1.1, h.2.2.1⟩

/-! ## Auth-URL construction lemmas -/

theorem naver_authQuery_bytes (n : Naver.Provider) (S : GoStr) (hS : ByteStr S)
    (h1 : ByteStr n.clientID) (h2 : ByteStr n.redirectURL) :
    ∀ kv ∈ Naver.authQuery n S, ByteStr kv.1 ∧ ByteStr kv.2 := by
  intro kv hkv
  simp [Naver.authQuery] at hkv
  rcases hkv with h | h | h | h <;> subst h
  · exact ⟨(by decide : ByteStr (gs "response_type")), (by decide : ByteStr (gs "code"))⟩
  · exact ⟨(by decide : ByteStr (gs "client_id")), h1⟩
  · exact ⟨(by decide : ByteStr (gs "redirect_uri")), h2⟩
  · exact ⟨(by decide : ByteStr (gs "state")), hS⟩

theorem kakao_authQuery_bytes (k : Kakao.Provider) (S : GoStr) (hS : ByteStr S)
    (h1 : ByteStr k.clientID) (h2 : ByteStr k.redirectURL) :
    ∀ kv ∈ Kakao.authQuery k S, ByteStr kv.1 ∧ ByteStr kv.2 := by
  intro kv hkv
  simp [Kakao.authQuery] at hkv
  rcases hkv with h | h | h | h <;> subst h
  · exact ⟨(by decide : ByteStr (gs "client_id")), h1⟩
  · exact ⟨(by decide : ByteStr (gs "redirect_uri")), h2⟩
  · exact ⟨(by decide : ByteStr (gs "response_type")), (by decide : ByteStr (gs "code"))⟩
  · exact ⟨(by decide : ByteStr (gs "state")), hS⟩

theorem google_authQuery_bytes (g : Google.Provider) (S : GoStr) (hS : ByteStr S)
    (h1 : ByteStr g.clientID) (h2 : ByteStr g.redirectURL) :
    ∀ kv ∈ Google.authQuery g S, ByteStr kv.1 ∧ ByteStr kv.2 := by
  intro kv hkv
  simp [Google.authQuery] at hkv
  rcases hkv with h | h | h | h | h | h | h <;> subst h
  · exact ⟨(by decide : ByteStr (gs "client_id")), h1⟩
  · exact ⟨(by decide : ByteStr (gs "redirect_uri")), h2⟩
  · exact ⟨(by decide : ByteStr (gs "response_type")), (by decide : ByteStr (gs "code"))⟩
  · exact ⟨(by decide : ByteStr (gs "scope")), (by decide : ByteStr (gs "openid email profile"))⟩
  · exact ⟨(by decide : ByteStr (gs "state")), hS⟩
  · exact ⟨(by decide : ByteStr (gs "access_type")), (by decide : ByteStr (gs "offline"))⟩
  · exact ⟨(by decide : ByteStr (gs "prompt")), (by decide : ByteStr (gs "consent"))⟩

theorem naver_authQuery_keysNodup (n : Naver.Provider) (S : GoStr) :
    (keysOf (Naver.authQuery n S)).Nodup := by
  simp [keysOf, Naver.authQuery]
  decide

theorem kakao_authQuery_keysNodup (k : Kakao.Provider) (S : GoStr) :
    (keysOf (Kakao.authQuery k S)).Nodup := by
  simp [keysOf, Kakao.authQuery]
  decide

theorem google_authQuery_keysNodup (g : Google.Provider) (S : GoStr) :
    (keysOf (Google.authQuery g S)).Nodup := by
  simp [keysOf, Google.authQuery]
  decide

/-- C3: with an empty configured redirect URL, `GetAuthURL` fails with
`RedirectURLNotSet` for all three adapters; with a non-empty redirect
URL it succeeds (the operation takes no executor — the source performs
no network call building the URL) and the returned URL's query parses to
parameters containing `response_type=code`, the configured `client_id`
and `redirect_uri`, and `state=S`, with Google additionally sending
`scope="openid email profile"`, `access_type=offline` and
`prompt=consent`. -/
theorem claim_C3
    (nE : Naver.Provider) (kE : Kakao.Provider) (gE : Google.Provider)
    (hnE : nE.redirectURL = []) (hkE : kE.redirectURL = []) (hgE : gE.redirectURL = [])
    (n : Naver.Provider) (k : Kakao.Provider) (g : Google.Provider) (S : GoStr)
    (hn : n.redirectURL ≠ []) (hk : k.redirectURL ≠ []) (hg : g.redirectURL ≠ [])
    (hS : ByteStr S)
    (hnc : ByteStr n.clientID) (hnr : ByteStr n.redirectURL)
    (hkc : ByteStr k.clientID) (hkr : ByteStr k.redirectURL)
    (hgc : ByteStr g.clientID) (hgr : ByteStr g.redirectURL) :
    (failsWith (Naver.GetAuthURL nE S) .redirectURLNotSet ∧
     failsWith (Kakao.GetAuthURL kE S) .redirectURLNotSet ∧
     failsWith (Google.GetAuthURL gE S) .redirectURLNotSet) ∧
    (∃ q ps, Naver.GetAuthURL n S = .ok (Naver.AuthURL ++ 63 :: q) ∧
      parseQueryGo q = (ps, false) ∧
      assocGet (gs "response_type") ps = some (gs "code") ∧
      assocGet (gs "client_id") ps = some n.clientID ∧
      assocGet (gs "redirect_uri") ps = some n.redirectURL ∧
      assocGet (gs "state") ps = some S) ∧
    (∃ q ps, Kakao.GetAuthURL k S = .ok (Kakao.AuthURL ++ 63 :: q) ∧
      parseQueryGo q = (ps, false) ∧
      assocGet (gs "response_type") ps = some (gs "code") ∧
      assocGet (gs "client_id") ps = some k.clientID ∧
      assocGet (gs "redirect_uri") ps = some k.redirectURL ∧
      assocGet (gs "state") ps = some S) ∧
    (∃ q ps, Google.GetAuthURL g S = .ok (Google.AuthURL ++ 63 :: q) ∧
      parseQueryGo q = (ps, false) ∧
      assocGet (gs "response_type") ps = some (gs "code") ∧
      assocGet (gs "client_id") ps = some g.clientID ∧
      assocGet (gs "redirect_uri") ps = some g.redirectURL ∧
      assocGet (gs "state") ps = some S ∧
      assocGet (gs "scope") ps = some (gs "openid email profile") ∧
      assocGet (gs "access_type") ps = some (gs "offline") ∧
      assocGet (gs "prompt") ps = some (gs "consent")) := by
  refine ⟨⟨?_, ?_, ?_⟩, ?_, ?_, ?_⟩
  · exact ⟨WrapProviderError Naver.ProviderType .redirectURLNotSet [],
      by simp [Naver.GetAuthURL, hnE], errorsIs_wrapProviderError _ _ _⟩
  · exact ⟨WrapProviderError Kakao.ProviderType .redirectURLNotSet [],
      by simp [Kakao.GetAuthURL, hkE], errorsIs_wrapProviderError _ _ _⟩
  · exact ⟨WrapProviderError Google.ProviderType .redirectURLNotSet [],
      by simp [Google.GetAuthURL, hgE], errorsIs_wrapProviderError _ _ _⟩
  · refine ⟨encodeValues (Naver.authQuery n S), sortKVs (Naver.authQuery n S),
      by simp [Naver.GetAuthURL, hn],
      parse_encodeValues _ (naver_authQuery_bytes n S hS hnc hnr), ?_, ?_, ?_, ?_⟩ <;>
      rw [assocGet_sortKVs _ _ (naver_authQuery_keysNodup n S)] <;> rfl
  · refine ⟨encodeValues (Kakao.authQuery k S), sortKVs (Kakao.authQuery k S),
      by simp [Kakao.GetAuthURL, hk],
      parse_encodeValues _ (kakao_authQuery_bytes k S hS hkc hkr), ?_, ?_, ?_, ?_⟩ <;>
      rw [assocGet_sortKVs _ _ (kakao_authQuery_keysNodup k S)] <;> rfl
  · refine ⟨encodeValues (Google.authQuery g S), sortKVs (Google.authQuery g S),
      by simp [Google.GetAuthURL, hg],
      parse_encodeValues _ (google_authQuery_bytes g S hS hgc hgr),
      ?_, ?_, ?_, ?_, ?_, ?_, ?_⟩ <;>
      rw [assocGet_sortKVs _ _ (google_authQuery_keysNodup g S)] <;> rfl

/-- Witness for C3 at concrete adapters (empty and configured redirect
URLs). -/
theorem claim_C3_witness :
    (failsWith (Naver.GetAuthURL ⟨constExec (.error []), gs "cid", gs "sec", []⟩ (gs "st"))
        .redirectURLNotSet ∧
     failsWith (Kakao.GetAuthURL ⟨constExec (.error []), gs "cid", gs "sec", []⟩ (gs "st"))
        .redirectURLNotSet ∧
     failsWith (Google.GetAuthURL ⟨constExec (.error []), gs "cid", gs "sec", []⟩ (gs "st"))
        .redirectURLNotSet) ∧
    (∃ q ps, Naver.GetAuthURL naverBadP (gs "st") = .ok (Naver.AuthURL ++ 63 :: q) ∧
      parseQueryGo q = (ps, false) ∧
      assocGet (gs "response_type") ps = some (gs "code") ∧
      assocGet (gs "client_id") ps = some naverBadP.clientID ∧
      assocGet (gs "redirect_uri") ps = some naverBadP.redirectURL ∧
      assocGet (gs "state") ps = some (gs "st")) := by
  have h := claim_C3 ⟨constExec (.error []), gs "cid", gs "sec", []⟩
    ⟨constExec (.error []), gs "cid", gs "sec", []⟩
    ⟨constExec (.error []), gs "cid", gs "sec", []⟩ rfl rfl rfl
    naverBadP kakaoBadP googleBadP (gs "st") (by decide) (by decide) (by decide)
    (by decide) (by decide) (by decide) (by decide) (by decide) (by decide) (by decide)
  exact ⟨h.1, h.2.1⟩

/-- C10 (implicit): for every adapter with a configured redirect URL and
every state byte-string `S` — ampersands, equals signs, question marks,
spaces and non-ASCII bytes included — the built URL percent-encodes `S`
so that parsing the query component recovers exactly `S` under the
`state` key, and the parsed query keys appear in bytewise-lexicographic
(sorted) order.  The output is deterministic for fixed configuration and
state because the whole construction is a pure function of them. -/
theorem claim_C10
    (n : Naver.Provider) (k : Kakao.Provider) (g : Google.Provider) (S : GoStr)
    (hn : n.redirectURL ≠ []) (hk : k.redirectURL ≠ []) (hg : g.redirectURL ≠ [])
    (hS : ByteStr S)
    (hnc : ByteStr n.clientID) (hnr : ByteStr n.redirectURL)
    (hkc : ByteStr k.clientID) (hkr : ByteStr k.redirectURL)
    (hgc : ByteStr g.clientID) (hgr : ByteStr g.redirectURL) :
    (∃ q ps, Naver.GetAuthURL n S = .ok (Naver.AuthURL ++ 63 :: q) ∧
      parseQueryGo q = (ps, false) ∧ KeySorted ps ∧
      assocGet (gs "state") ps = some S) ∧
    (∃ q ps, Kakao.GetAuthURL k S = .ok (Kakao.AuthURL ++ 63 :: q) ∧
      parseQueryGo q = (ps, false) ∧ KeySorted ps ∧
      assocGet (gs "state") ps = some S) ∧
    (∃ q ps, Google.GetAuthURL g S = .ok (Google.AuthURL ++ 63 :: q) ∧
      parseQueryGo q = (ps, false) ∧ KeySorted ps ∧
      assocGet (gs "state") ps = some S) := by
  refine ⟨?_, ?_, ?_⟩
  · refine ⟨encodeValues (Naver.authQuery n S), sortKVs (Naver.authQuery n S),
      by simp [Naver.GetAuthURL, hn],
      parse_encodeValues _ (naver_authQuery_bytes n S hS hnc hnr),
      keySorted_sortKVs _, ?_⟩
    rw [assocGet_sortKVs _ _ (naver_authQuery_keysNodup n S)]
    rfl
  · refine ⟨encodeValues (Kakao.authQuery k S), sortKVs (Kakao.authQuery k S),
      by simp [Kakao.GetAuthURL, hk],
      parse_encodeValues _ (kakao_authQuery_bytes k S hS hkc hkr),
      keySorted_sortKVs _, ?_⟩
    rw [assocGet_sortKVs _ _ (kakao_authQuery_keysNodup k S)]
    rfl
  · refine ⟨encodeValues (Google.authQuery g S), sortKVs (Google.authQuery g S),
      by simp [Google.GetAuthURL, hg],
      parse_encodeValues _ (google_authQuery_bytes g S hS hgc hgr),
      keySorted_sortKVs _, ?_⟩
    rw [assocGet_sortKVs _ _ (google_authQuery_keysNodup g S)]
    rfl

/-- Witness for C10: a state containing `&`, `=`, a space, `?` and the
non-ASCII UTF-8 bytes `0xEA 0xB0 0x80`. -/
theorem claim_C10_witness :
    ∃ q ps, Naver.GetAuthURL naverBadP (gs "a&b=c d?" ++ [234, 176, 128]) =
        .ok (Naver.AuthURL ++ 63 :: q) ∧
      parseQueryGo q = (ps, false) ∧ KeySorted ps ∧
      assocGet (gs "state") ps = some (gs "a&b=c d?" ++ [234, 176, 128]) :=
  (claim_C10 naverBadP kakaoBadP googleBadP (gs "a&b=c d?" ++ [234, 176, 128])
    (by decide) (by decide) (by decide) (by decide) (by decide) (by decide)
    (by decide) (by decide) (by decide) (by decide)).1

/-! ## RefreshToken request-shape lemmas -/

theorem naver_RefreshToken_log (p : Naver.Provider) (rt : GoStr) (hrt : rt ≠ []) :
    (Naver.RefreshToken p rt).2 = [Naver.refreshRequest p rt] := by
  simp only [Naver.RefreshToken, if_neg hrt]
  rcases hE : p.exec (Naver.refreshRequest p rt) with e | resp
  · simp [hE]
  · simp only [hE]
    split
    · rfl
    · rcases hU : Naver.unmarshalTokenInfo resp.bodyJson with m | t <;> simp [hU]

theorem kakao_RefreshToken_log (p : Kakao.Provider) (rt : GoStr) (hrt : rt ≠ []) :
    (Kakao.RefreshToken p rt).2 = [Kakao.refreshRequest p rt] := by
  simp only [Kakao.RefreshToken, if_neg hrt]
  rcases hE : p.exec (Kakao.refreshRequest p rt) with e | resp
  · simp [hE]
  · simp only [hE]
    split
    · rfl
    · rcases hU : Kakao.unmarshalTokenInfo resp.bodyJson with m | t <;> simp [hU]

theorem google_RefreshToken_log (p : Google.Provider) (rt : GoStr) (hrt : rt ≠ []) :
    (Google.RefreshToken p rt).2 = [Google.refreshRequest p rt] := by
  simp only [Google.RefreshToken, if_neg hrt]
  rcases hE : p.exec (Google.refreshRequest p rt) with e | resp
  · simp [hE]
  · simp only [hE]
    split
    · rfl
    · rcases hU : Google.unmarshalTokenInfo resp.bodyJson with m | t <;> simp [hU]

theorem naver_refreshForm_bytes (p : Naver.Provider) (rt : GoStr) (hrt : ByteStr rt)
    (h1 : ByteStr p.clientID) (h2 : ByteStr p.clientSecret) :
    ∀ kv ∈ Naver.refreshForm p rt, ByteStr kv.1 ∧ ByteStr kv.2 := by
  intro kv hkv
  simp [Naver.refreshForm] at hkv
  rcases hkv with h | h | h | h <;> subst h
  · exact ⟨(by decide : ByteStr (gs "grant_type")), (by decide : ByteStr (gs "refresh_token"))⟩
  · exact ⟨(by decide : ByteStr (gs "client_id")), h1⟩
  · exact ⟨(by decide : ByteStr (gs "client_secret")), h2⟩
  · exact ⟨(by decide : ByteStr (gs "refresh_token")), hrt⟩

theorem kakao_refreshForm_bytes (p : Kakao.Provider) (rt : GoStr) (hrt : ByteStr rt)
    (h1 : ByteStr p.clientID) (h2 : ByteStr p.clientSecret) :
    ∀ kv ∈ Kakao.refreshForm p rt, ByteStr kv.1 ∧ ByteStr kv.2 := by
  intro kv hkv
  simp [Kakao.refreshForm] at hkv
  rcases hkv with h | h | h | h <;> subst h
  · exact ⟨(by decide : ByteStr (gs "grant_type")), (by decide : ByteStr (gs "refresh_token"))⟩
  · exact ⟨(by decide : ByteStr (gs "client_id")), h1⟩
  · exact ⟨(by decide : ByteStr (gs "refresh_token")), hrt⟩
  · exact ⟨(by decide : ByteStr (gs "client_secret")), h2⟩

theorem google_refreshForm_bytes (p : Google.Provider) (rt : GoStr) (hrt : ByteStr rt)
    (h1 : ByteStr p.clientID) (h2 : ByteStr p.clientSecret) :
    ∀ kv ∈ Google.refreshForm p rt, ByteStr kv.1 ∧ ByteStr kv.2 := by
  intro kv hkv
  simp [Google.refreshForm] at hkv
  rcases hkv with h | h | h | h <;> subst h
  · exact ⟨(by decide : ByteStr (gs "grant_type")), (by decide : ByteStr (gs "refresh_token"))⟩
  · exact ⟨(by decide : ByteStr (gs "client_id")), h1⟩
  · exact ⟨(by decide : ByteStr (gs "client_secret")), h2⟩
  · exact ⟨(by decide : ByteStr (gs "refresh_token")), hrt⟩

theorem naver_refreshForm_keysNodup (p : Naver.Provider) (rt : GoStr) :
    (keysOf (Naver.refreshForm p rt)).Nodup := by
  simp [keysOf, Naver.refreshForm]
  decide

theorem kakao_refreshForm_keysNodup (p : Kakao.Provider) (rt : GoStr) :
    (keysOf (Kakao.refreshForm p rt)).Nodup := by
  simp [keysOf, Kakao.refreshForm]
  decide

theorem google_refreshForm_keysNodup (p : Google.Provider) (rt : GoStr) :
    (keysOf (Google.refreshForm p rt)).Nodup := by
  simp [keysOf, Google.refreshForm]
  decide

/-- C4: all three adapters implement `RefreshToken` (the Google
implementation is modelled from the spec, as its source file is not in
the snapshot): an empty refresh token fails with `EmptyRefreshToken`
with zero executor calls; a non-empty refresh token issues exactly one
form-encoded POST to that provider's token endpoint whose body carries
`grant_type=refresh_token`, with the same non-200 / 200-decode
failure/success shape as the code exchange. -/
theorem claim_C4
    (n1 : Naver.Provider) (k1 : Kakao.Provider) (g1 : Google.Provider)
    (n2 : Naver.Provider) (k2 : Kakao.Provider) (g2 : Google.Provider)
    (n3 : Naver.Provider) (k3 : Kakao.Provider) (g3 : Google.Provider)
    (rt : GoStr) (hrt : rt ≠ []) (hrtB : ByteStr rt)
    (hnc : ByteStr n1.clientID) (hns : ByteStr n1.clientSecret)
    (hkc : ByteStr k1.clientID) (hks : ByteStr k1.clientSecret)
    (hgc : ByteStr g1.clientID) (hgsec : ByteStr g1.clientSecret)
    (bad : HttpResponse) (hbadStatus : bad.statusCode ≠ 200)
    (okN okK okG : HttpResponse)
    (hokN : okN.statusCode = 200) (hokK : okK.statusCode = 200) (hokG : okG.statusCode = 200)
    (tN : Naver.TokenInfo) (tK : Kakao.TokenInfo) (tG : Google.TokenInfo)
    (hdN : Naver.unmarshalTokenInfo okN.bodyJson = .ok tN)
    (hdK : Kakao.unmarshalTokenInfo okK.bodyJson = .ok tK)
    (hdG : Google.unmarshalTokenInfo okG.bodyJson = .ok tG)
    (hn2 : n2.exec = constExec (.ok bad)) (hn3 : n3.exec = constExec (.ok okN))
    (hk2 : k2.exec = constExec (.ok bad)) (hk3 : k3.exec = constExec (.ok okK))
    (hg2 : g2.exec = constExec (.ok bad)) (hg3 : g3.exec = constExec (.ok okG)) :
    (failsWith (Naver.RefreshToken n1 []).1 .emptyRefreshToken ∧
      (Naver.RefreshToken n1 []).2 = [] ∧
     failsWith (Kakao.RefreshToken k1 []).1 .emptyRefreshToken ∧
      (Kakao.RefreshToken k1 []).2 = [] ∧
     failsWith (Google.RefreshToken g1 []).1 .emptyRefreshToken ∧
      (Google.RefreshToken g1 []).2 = []) ∧
    ((Naver.RefreshToken n1 rt).2 = [Naver.refreshRequest n1 rt] ∧
      (Naver.refreshRequest n1 rt).method = gs "POST" ∧
      (Naver.refreshRequest n1 rt).url = Naver.TokenURL ∧
      (Naver.refreshRequest n1 rt).headers =
        [(gs "Content-Type", gs "application/x-www-form-urlencoded")] ∧
      assocGet (gs "grant_type") (parseQueryGo (Naver.refreshRequest n1 rt).body).1 =
        some (gs "refresh_token")) ∧
    ((Kakao.RefreshToken k1 rt).2 = [Kakao.refreshRequest k1 rt] ∧
      (Kakao.refreshRequest k1 rt).method = gs "POST" ∧
      (Kakao.refreshRequest k1 rt).url = Kakao.TokenURL ∧
      (Kakao.refreshRequest k1 rt).headers =
        [(gs "Content-Type", gs "application/x-www-form-urlencoded")] ∧
      assocGet (gs "grant_type") (parseQueryGo (Kakao.refreshRequest k1 rt).body).1 =
        some (gs "refresh_token")) ∧
    ((Google.RefreshToken g1 rt).2 = [Google.refreshRequest g1 rt] ∧
      (Google.refreshRequest g1 rt).method = gs "POST" ∧
      (Google.refreshRequest g1 rt).url = Google.TokenURL ∧
      (Google.refreshRequest g1 rt).headers =
        [(gs "Content-Type", gs "application/x-www-form-urlencoded")] ∧
      assocGet (gs "grant_type") (parseQueryGo (Google.refreshRequest g1 rt).body).1 =
        some (gs "refresh_token")) ∧
    (failsWithCtx (Naver.RefreshToken n2 rt).1 .tokenRequestFailed bad.bodyRaw ∧
     failsWithCtx (Kakao.RefreshToken k2 rt).1 .tokenRequestFailed bad.bodyRaw ∧
     failsWithCtx (Google.RefreshToken g2 rt).1 .tokenRequestFailed bad.bodyRaw) ∧
    ((Naver.RefreshToken n3 rt).1 = .ok tN ∧
     (Kakao.RefreshToken k3 rt).1 = .ok tK ∧
     (Google.RefreshToken g3 rt).1 = .ok tG) := by
  refine ⟨⟨?_, ?_, ?_, ?_, ?_, ?_⟩, ⟨?_, rfl, rfl, rfl, ?_⟩, ⟨?_, rfl, rfl, rfl, ?_⟩,
    ⟨?_, rfl, rfl, rfl, ?_⟩, ⟨?_, ?_, ?_⟩, ⟨?_, ?_, ?_⟩⟩
  · exact (by rw [naver_RefreshToken_empty]; exact failsWith_wrap _ _ _)
  · exact (by rw [naver_RefreshToken_empty])
  · exact (by rw [kakao_RefreshToken_empty]; exact failsWith_wrap _ _ _)
  · exact (by rw [kakao_RefreshToken_empty])
  · exact (by rw [google_RefreshToken_empty]; exact failsWith_wrap _ _ _)
  · exact (by rw [google_RefreshToken_empty])
  · exact naver_RefreshToken_log n1 rt hrt
  · show assocGet (gs "grant_type") (parseQueryGo (encodeValues (Naver.refreshForm n1 rt))).1 =
      some (gs "refresh_token")
    rw [parse_encodeValues _ (naver_refreshForm_bytes n1 rt hrtB hnc hns)]
    rw [show (sortKVs (Naver.refreshForm n1 rt), false).1 = sortKVs (Naver.refreshForm n1 rt)
      from rfl]
    rw [assocGet_sortKVs _ _ (naver_refreshForm_keysNodup n1 rt)]
    rfl
  · exact kakao_RefreshToken_log k1 rt hrt
  · show assocGet (gs "grant_type") (parseQueryGo (encodeValues (Kakao.refreshForm k1 rt))).1 =
      some (gs "refresh_token")
    rw [parse_encodeValues _ (kakao_refreshForm_bytes k1 rt hrtB hkc hks)]
    rw [show (sortKVs (Kakao.refreshForm k1 rt), false).1 = sortKVs (Kakao.refreshForm k1 rt)
      from rfl]
    rw [assocGet_sortKVs _ _ (kakao_refreshForm_keysNodup k1 rt)]
    rfl
  · exact google_RefreshToken_log g1 rt hrt
  · show assocGet (gs "grant_type") (parseQueryGo (encodeValues (Google.refreshForm g1 rt))).1 =
      some (gs "refresh_token")
    rw [parse_encodeValues _ (google_refreshForm_bytes g1 rt hrtB hgc hgsec)]
    rw [show (sortKVs (Google.refreshForm g1 rt), false).1 = sortKVs (Google.refreshForm g1 rt)
      from rfl]
    rw [assocGet_sortKVs _ _ (google_refreshForm_keysNodup g1 rt)]
    rfl
  · exact (by rw [naver_RefreshToken_non200 n2 rt hrt bad hbadStatus hn2]
              exact failsWithCtx_wrap _ _ _)
  · exact (by rw [kakao_RefreshToken_non200 k2 rt hrt bad hbadStatus hk2]
              exact failsWithCtx_wrap _ _ _)
  · exact (by rw [google_RefreshToken_non200 g2 rt hrt bad hbadStatus hg2]
              exact failsWithCtx_wrap _ _ _)
  · exact (by rw [naver_RefreshToken_ok n3 rt hrt okN hokN tN hdN hn3])
  · exact (by rw [kakao_RefreshToken_ok k3 rt hrt okK hokK tK hdK hk3])
  · exact (by rw [google_RefreshToken_ok g3 rt hrt okG hokG tG hdG hg3])

/-- Witness for C4 at the concrete adapters and responses. -/
theorem claim_C4_witness :
    (Naver.RefreshToken naverBadP (gs "rt")).2 = [Naver.refreshRequest naverBadP (gs "rt")] ∧
    assocGet (gs "grant_type")
        (parseQueryGo (Naver.refreshRequest naverBadP (gs "rt")).body).1 =
      some (gs "refresh_token") ∧
    (Google.RefreshToken googleOkTokP (gs "rt")).1 = .ok ⟨gs "AT", 3600, gs "RT"⟩ := by
  have h := claim_C4 naverBadP kakaoBadP googleBadP naverBadP kakaoBadP googleBadP
    naverOkTokP kakaoOkTokP googleOkTokP (gs "rt") (by decide) (by decide)
    (by decide) (by decide) (by decide) (by decide) (by decide) (by decide)
    respBad (by decide) respOkNaverTok respOkKakaoTok respOkGoogleTok rfl rfl rfl
    ⟨gs "AT", gs "RT", gs "3600"⟩ ⟨gs "AT", gs "RT", 3600⟩ ⟨gs "AT", 3600, gs "RT"⟩
    rfl rfl rfl rfl rfl rfl rfl rfl rfl
  exact ⟨h.2.1.1, h.2.1.2.2.2.2, h.2.2.2.2.2.2.2⟩

/-! ## `strconv.Atoi` characterization -/

/-- A syntactically valid decimal integer string: an optional single
leading sign followed by at least one ASCII digit. -/
def IsValidDecInt (s : GoStr) : Prop :=
  (s ≠ [] ∧ ∀ b ∈ s, 48 ≤ b ∧ b ≤ 57) ∨
    (∃ rest, (s = 43 :: rest ∨ s = 45 :: rest) ∧ rest ≠ [] ∧ ∀ b ∈ rest, 48 ≤ b ∧ b ≤ 57)

theorem decDigits_eq_none_iff (s : GoStr) :
    decDigits s = none ↔ ¬(s ≠ [] ∧ ∀ b ∈ s, 48 ≤ b ∧ b ≤ 57) := by
  unfold decDigits
  split
  · rename_i h
    exact iff_of_false (by simp) (not_not_intro h)
  · rename_i h
    exact iff_of_true rfl h

theorem atoiGo_plus (rest : GoStr) :
    atoiGo (43 :: rest) = (decDigits rest).map Int.ofNat := by
  simp [atoiGo]

theorem atoiGo_minus (rest : GoStr) :
    atoiGo (45 :: rest) = (decDigits rest).map (fun n => -Int.ofNat n) := by
  simp [atoiGo]

theorem atoiGo_other (c : Nat) (rest : GoStr) (h43 : c ≠ 43) (h45 : c ≠ 45) :
    atoiGo (c :: rest) = (decDigits (c :: rest)).map Int.ofNat := by
  simp [atoiGo, h43, h45]

theorem atoiGo_eq_none_iff (s : GoStr) : atoiGo s = none ↔ ¬IsValidDecInt s := by
  cases s with
  | nil =>
    simp [atoiGo, IsValidDecInt]
  | cons c rest =>
    by_cases h43 : c = 43
    · subst h43
      rw [atoiGo_plus, Option.map_eq_none', decDigits_eq_none_iff]
      unfold IsValidDecInt
      constructor
      · intro h hval
        rcases hval with ⟨_, hall⟩ | ⟨r, h' | h', hr, hall⟩
        · have := hall 43 (List.mem_cons_self 43 rest)
          omega
        · injection h' with h1 h2
          subst h2
          exact h ⟨hr, hall⟩
        · injection h' with h1 h2
          omega
      · intro h hd
        exact h (Or.inr ⟨rest, Or.inl rfl, hd.1, hd.2⟩)
    · by_cases h45 : c = 45
      · subst h45
        rw [atoiGo_minus, Option.map_eq_none', decDigits_eq_none_iff]
        unfold IsValidDecInt
        constructor
        · intro h hval
          rcases hval with ⟨_, hall⟩ | ⟨r, h' | h', hr, hall⟩
          · have := hall 45 (List.mem_cons_self 45 rest)
            omega
          · injection h' with h1 h2
            omega
          · injection h' with h1 h2
            subst h2
            exact h ⟨hr, hall⟩
        · intro h hd
          exact h (Or.inr ⟨rest, Or.inr rfl, hd.1, hd.2⟩)
      · rw [atoiGo_other c rest h43 h45, Option.map_eq_none', decDigits_eq_none_iff]
        unfold IsValidDecInt
        constructor
        · intro h hval
          rcases hval with hd | ⟨r, h' | h', hr, hall⟩
          · exact h hd
          · injection h' with h1 h2
            exact h43 h1
          · injection h' with h1 h2
            exact h45 h1
        · intro h hd
          exact h (Or.inl hd)

/-- C5: the canned Naver token JSON decodes with `GetAccessToken = "AT"`,
`GetRefreshToken = "RT"`, `GetExpiry = 3600`; and for every `expires_in`
string that is not a valid decimal integer, `GetExpiry` silently
defaults to `0` (no error value exists in the accessor's signature). -/
theorem claim_C5 (a r s : GoStr) (hs : ¬IsValidDecInt s) :
    Naver.unmarshalTokenInfo
        (some (.obj [(gs "access_token", .str (gs "AT")),
                     (gs "refresh_token", .str (gs "RT")),
                     (gs "expires_in", .str (gs "3600"))]))
      = .ok ⟨gs "AT", gs "RT", gs "3600"⟩ ∧
    Naver.TokenInfo.GetAccessToken ⟨gs "AT", gs "RT", gs "3600"⟩ = gs "AT" ∧
    Naver.TokenInfo.GetRefreshToken ⟨gs "AT", gs "RT", gs "3600"⟩ = gs "RT" ∧
    Naver.TokenInfo.GetExpiry ⟨gs "AT", gs "RT", gs "3600"⟩ = 3600 ∧
    Naver.TokenInfo.GetExpiry ⟨a, r, s⟩ = 0 := by
  refine ⟨rfl, rfl, rfl, by decide, ?_⟩
  show (atoiGo s).getD 0 = 0
  rw [(atoiGo_eq_none_iff s).mpr hs]
  rfl

/-- Witness for C5 at `expires_in = "not-a-number"`. -/
theorem claim_C5_witness :
    Naver.TokenInfo.GetExpiry ⟨gs "AT", gs "RT", gs "not-a-number"⟩ = 0 :=
  (claim_C5 (gs "AT") (gs "RT") (gs "not-a-number")
    ((atoiGo_eq_none_iff _).mp (by decide))).2.2.2.2

/-! ## Decimal rendering lemmas and user-info pipeline -/

theorem natDigitsRev_zero : natDigitsRev 0 = [] := by
  unfold natDigitsRev
  rfl

theorem natDigitsRev_step (n : Nat) (h : n ≠ 0) :
    natDigitsRev n = (48 + n % 10) :: natDigitsRev (n / 10) := by
  conv_lhs => unfold natDigitsRev
  rw [dif_neg h]

theorem natDigitsRev_ne_nil (n : Nat) (h : n ≠ 0) : natDigitsRev n ≠ [] := by
  rw [natDigitsRev_step n h]
  simp

theorem itoaNat_ne_nil (n : Nat) : itoaNat n ≠ [] := by
  unfold itoaNat
  split
  · simp
  · rename_i h
    simpa using natDigitsRev_ne_nil n h

theorem itoaGo_1001 : itoaGo 1001 = gs "1001" := by
  have h1 : natDigitsRev 1 = [49] := by
    rw [natDigitsRev_step 1 (by norm_num)]
    norm_num [natDigitsRev_zero]
  have h10 : natDigitsRev 10 = [48, 49] := by
    rw [natDigitsRev_step 10 (by norm_num)]
    norm_num [h1]
  have h100 : natDigitsRev 100 = [48, 48, 49] := by
    rw [natDigitsRev_step 100 (by norm_num)]
    norm_num [h10]
  have h1001 : natDigitsRev 1001 = [49, 48, 48, 49] := by
    rw [natDigitsRev_step 1001 (by norm_num)]
    norm_num [h100]
  show itoaGo 1001 = [49, 48, 48, 49]
  unfold itoaGo
  rw [if_neg (by norm_num)]
  unfold itoaNat
  rw [if_neg (by norm_num)]
  rw [show ((1001 : Int).toNat) = 1001 from rfl, h1001]
  rfl

/-- `strconv.Itoa` never yields an empty string. -/
theorem itoaGo_ne_nil (i : Int) : itoaGo i ≠ [] := by
  unfold itoaGo
  split
  · simp
  · exact itoaNat_ne_nil _

/-- HTTP 200 with the Kakao user payload
`id: 1001, kakao_account.email: "a@b.com",
kakao_account.profile.nickname: "nick"` (no top-level name). -/
def respKakaoUser : HttpResponse :=
  ⟨200, gs "kakao user body",
    some (.obj [(gs "id", .num 1001),
                (gs "kakao_account",
                  .obj [(gs "email", .str (gs "a@b.com")),
                        (gs "profile", .obj [(gs "nickname", .str (gs "nick"))])])])⟩

/-- Kakao adapter whose transport answers the user payload. -/
def kakaoUserP : Kakao.Provider :=
  ⟨constExec (.ok respKakaoUser), gs "cid", gs "sec", gs "http://cb"⟩

theorem kakao_GetUserInfo_ok (p : Kakao.Provider) (tok : GoStr) (resp : HttpResponse)
    (u : Kakao.UserInfo) (hdec : Kakao.unmarshalUserInfo resp.bodyJson = .ok u)
    (hex : p.exec = constExec (.ok resp)) :
    Kakao.GetUserInfo p tok = (.ok u, [Kakao.userInfoRequest tok]) := by
  simp [Kakao.GetUserInfo, hex, constExec, hdec]

theorem naver_GetUserInfo_ok (p : Naver.Provider) (tok : GoStr) (resp : HttpResponse)
    (u : Naver.UserInfo) (hdec : Naver.unmarshalUserInfo resp.bodyJson = .ok u)
    (hex : p.exec = constExec (.ok resp)) :
    Naver.GetUserInfo p tok = (.ok u, [Naver.userInfoRequest tok]) := by
  simp [Naver.GetUserInfo, hex, constExec, hdec]

theorem google_GetUserInfo_ok (p : Google.Provider) (tok : GoStr) (resp : HttpResponse)
    (u : Google.UserInfo) (hdec : Google.unmarshalUserInfo resp.bodyJson = .ok u)
    (hex : p.exec = constExec (.ok resp)) :
    Google.GetUserInfo p tok = (.ok u, [Google.userInfoRequest tok]) := by
  simp [Google.GetUserInfo, hex, constExec, hdec]

theorem kakao_GetUserInfo_decodeErr (p : Kakao.Provider) (tok : GoStr) (resp : HttpResponse)
    (m : GoStr) (hdec : Kakao.unmarshalUserInfo resp.bodyJson = .error m)
    (hex : p.exec = constExec (.ok resp)) :
    Kakao.GetUserInfo p tok =
      (.error (WrapProviderError Kakao.ProviderType .userInfoRequestFailed m),
        [Kakao.userInfoRequest tok]) := by
  simp [Kakao.GetUserInfo, hex, constExec, hdec]

theorem naver_GetUserInfo_decodeErr (p : Naver.Provider) (tok : GoStr) (resp : HttpResponse)
    (m : GoStr) (hdec : Naver.unmarshalUserInfo resp.bodyJson = .error m)
    (hex : p.exec = constExec (.ok resp)) :
    Naver.GetUserInfo p tok =
      (.error (WrapProviderError Naver.ProviderType .userInfoRequestFailed m),
        [Naver.userInfoRequest tok]) := by
  simp [Naver.GetUserInfo, hex, constExec, hdec]

theorem google_GetUserInfo_decodeErr (p : Google.Provider) (tok : GoStr) (resp : HttpResponse)
    (m : GoStr) (hdec : Google.unmarshalUserInfo resp.bodyJson = .error m)
    (hex : p.exec = constExec (.ok resp)) :
    Google.GetUserInfo p tok =
      (.error (WrapProviderError Google.ProviderType .userInfoRequestFailed m),
        [Google.userInfoRequest tok]) := by
  simp [Google.GetUserInfo, hex, constExec, hdec]

/-- C6: Kakao renders the numeric subject identifier in decimal
(`GetID = strconv.Itoa(id)`, so id 1001 yields `"1001"`), `GetName`
returns the `kakao_account` name when non-empty and otherwise falls back
to the nested profile nickname, and `FetchUserInfo` on the canned
payload yields identifier `"1001"`, email `"a@b.com"`, name `"nick"`. -/
theorem claim_C6 (u : Kakao.UserInfo) (k : Kakao.Provider) (tok : GoStr)
    (hex : k.exec = constExec (.ok respKakaoUser)) :
    Kakao.UserInfo.GetID u = itoaGo u.ID ∧
    (u.AccountInfo.Name = [] →
      Kakao.UserInfo.GetName u = u.AccountInfo.Profile.NickName) ∧
    (u.AccountInfo.Name ≠ [] → Kakao.UserInfo.GetName u = u.AccountInfo.Name) ∧
    itoaGo 1001 = gs "1001" ∧
    (∃ v, (Kakao.GetUserInfo k tok).1 = .ok v ∧
      Kakao.UserInfo.GetID v = gs "1001" ∧
      Kakao.UserInfo.GetEmail v = gs "a@b.com" ∧
      Kakao.UserInfo.GetName v = gs "nick") := by
  refine ⟨rfl, ?_, ?_, itoaGo_1001, ?_⟩
  · intro h
    simp [Kakao.UserInfo.GetName, h]
  · intro h
    simp [Kakao.UserInfo.GetName, h]
  · refine ⟨⟨1001, ⟨gs "a@b.com", ⟨gs "nick", []⟩, [], []⟩⟩, ?_, itoaGo_1001, rfl, rfl⟩
    rw [kakao_GetUserInfo_ok k tok respKakaoUser _ rfl hex]

/-- Witness for C6 at the concrete adapter and payload. -/
theorem claim_C6_witness :
    Kakao.UserInfo.GetID ⟨1001, ⟨[], ⟨gs "nick", []⟩, [], []⟩⟩ = itoaGo 1001 ∧
    Kakao.UserInfo.GetName ⟨1001, ⟨[], ⟨gs "nick", []⟩, [], []⟩⟩ = gs "nick" ∧
    (∃ v, (Kakao.GetUserInfo kakaoUserP (gs "token")).1 = .ok v ∧
      Kakao.UserInfo.GetID v = gs "1001" ∧
      Kakao.UserInfo.GetEmail v = gs "a@b.com" ∧
      Kakao.UserInfo.GetName v = gs "nick") := by
  have h := claim_C6 ⟨1001, ⟨[], ⟨gs "nick", []⟩, [], []⟩⟩ kakaoUserP (gs "token") rfl
  exact ⟨h.1, h.2.1 rfl, h.2.2.2.2⟩

/-! ## C7: the non-empty-identifier invariant -/

/-- Naver adapter whose transport answers HTTP 200 with the empty JSON
object `\x7b\x7d` — a payload that omits every user field. -/
def naverEmptyUserP : Naver.Provider :=
  ⟨constExec (.ok ⟨200, gs "\x7b\x7d", some (.obj [])⟩), gs "cid", gs "sec", gs "http://cb"⟩

/-- Counterexample to C7 as stated: the Naver fetch of the empty JSON
object succeeds (no error), yet the returned `UserInfo`'s `GetID()` is
the empty string — the adapter never validates that the payload carries
an identifier. -/
theorem claim_C7_counterexample :
    (Naver.GetUserInfo naverEmptyUserP (gs "token")).1 =
      .ok ⟨[], ⟨[], [], [], [], []⟩⟩ ∧
    Naver.UserInfo.GetID ⟨[], ⟨[], [], [], [], []⟩⟩ = [] := by
  constructor
  · rw [naver_GetUserInfo_ok naverEmptyUserP (gs "token") ⟨200, gs "\x7b\x7d", some (.obj [])⟩
      ⟨[], ⟨[], [], [], [], []⟩⟩ rfl rfl]
  · rfl

/-- C7 amended: the non-empty-identifier invariant holds only for Kakao,
whose `GetID` renders an integer in decimal (never empty); Naver and
Google return the payload's identifier field verbatim, which is empty
when the upstream payload omits it. -/
theorem claim_C7_amended (k : Kakao.Provider) (tok : GoStr) (u : Kakao.UserInfo)
    (reqs : List HttpRequest) (h : Kakao.GetUserInfo k tok = (.ok u, reqs)) :
    Kakao.UserInfo.GetID u ≠ [] ∧
    (∀ nu : Naver.UserInfo, Naver.UserInfo.GetID nu = nu.Response.ID) ∧
    (∀ gu : Google.UserInfo, Google.UserInfo.GetID gu = gu.ID) :=
  ⟨itoaGo_ne_nil u.ID, fun _ => rfl, fun _ => rfl⟩

/-- Witness for the amended C7 at the concrete Kakao fetch. -/
theorem claim_C7_amended_witness :
    Kakao.UserInfo.GetID ⟨1001, ⟨gs "a@b.com", ⟨gs "nick", []⟩, [], []⟩⟩ ≠ [] :=
  (claim_C7_amended kakaoUserP (gs "token") _ _
    (kakao_GetUserInfo_ok kakaoUserP (gs "token") respKakaoUser
      ⟨1001, ⟨gs "a@b.com", ⟨gs "nick", []⟩, [], []⟩⟩ rfl rfl)).1

/-! ## C8: status-code-blind user-info decoding -/

/-- C8: `GetUserInfo` never inspects the HTTP status code: the result is
unchanged under any change of status code; a body that is not valid JSON
fails with `UserInfoRequestFailed` (the taxonomy has no distinguished
unauthorized/forbidden kind at all); and a body that decodes as the
user-info JSON is treated as success even on a non-200 status. -/
theorem claim_C8 (cid sec red tok body : GoStr) (j : Option Json) (st1 st2 : Nat) :
    (Naver.GetUserInfo ⟨constExec (.ok ⟨st1, body, j⟩), cid, sec, red⟩ tok =
       Naver.GetUserInfo ⟨constExec (.ok ⟨st2, body, j⟩), cid, sec, red⟩ tok ∧
     (j = none →
       failsWith (Naver.GetUserInfo ⟨constExec (.ok ⟨st1, body, j⟩), cid, sec, red⟩ tok).1
         .userInfoRequestFailed) ∧
     (∀ u, Naver.unmarshalUserInfo j = .ok u →
       (Naver.GetUserInfo ⟨constExec (.ok ⟨st1, body, j⟩), cid, sec, red⟩ tok).1 = .ok u)) ∧
    (Kakao.GetUserInfo ⟨constExec (.ok ⟨st1, body, j⟩), cid, sec, red⟩ tok =
       Kakao.GetUserInfo ⟨constExec (.ok ⟨st2, body, j⟩), cid, sec, red⟩ tok ∧
     (j = none →
       failsWith (Kakao.GetUserInfo ⟨constExec (.ok ⟨st1, body, j⟩), cid, sec, red⟩ tok).1
         .userInfoRequestFailed) ∧
     (∀ u, Kakao.unmarshalUserInfo j = .ok u →
       (Kakao.GetUserInfo ⟨constExec (.ok ⟨st1, body, j⟩), cid, sec, red⟩ tok).1 = .ok u)) ∧
    (Google.GetUserInfo ⟨constExec (.ok ⟨st1, body, j⟩), cid, sec, red⟩ tok =
       Google.GetUserInfo ⟨constExec (.ok ⟨st2, body, j⟩), cid, sec, red⟩ tok ∧
     (j = none →
       failsWith (Google.GetUserInfo ⟨constExec (.ok ⟨st1, body, j⟩), cid, sec, red⟩ tok).1
         .userInfoRequestFailed) ∧
     (∀ u, Google.unmarshalUserInfo j = .ok u →
       (Google.GetUserInfo ⟨constExec (.ok ⟨st1, body, j⟩), cid, sec, red⟩ tok).1 = .ok u)) := by
  refine ⟨⟨?_, ?_, ?_⟩, ⟨?_, ?_, ?_⟩, ⟨?_, ?_, ?_⟩⟩
  · rcases hU : Naver.unmarshalUserInfo j with m | u
    · rw [naver_GetUserInfo_decodeErr _ tok ⟨st1, body, j⟩ m hU rfl,
        naver_GetUserInfo_decodeErr _ tok ⟨st2, body, j⟩ m hU rfl]
    · rw [naver_GetUserInfo_ok _ tok ⟨st1, body, j⟩ u hU rfl,
        naver_GetUserInfo_ok _ tok ⟨st2, body, j⟩ u hU rfl]
  · intro hj
    subst hj
    rw [naver_GetUserInfo_decodeErr _ tok ⟨st1, body, none⟩ invalidJsonMsg rfl rfl]
    exact failsWith_wrap _ _ _
  · intro u hU
    rw [naver_GetUserInfo_ok _ tok ⟨st1, body, j⟩ u hU rfl]
  · rcases hU : Kakao.unmarshalUserInfo j with m | u
    · rw [kakao_GetUserInfo_decodeErr _ tok ⟨st1, body, j⟩ m hU rfl,
        kakao_GetUserInfo_decodeErr _ tok ⟨st2, body, j⟩ m hU rfl]
    · rw [kakao_GetUserInfo_ok _ tok ⟨st1, body, j⟩ u hU rfl,
        kakao_GetUserInfo_ok _ tok ⟨st2, body, j⟩ u hU rfl]
  · intro hj
    subst hj
    rw [kakao_GetUserInfo_decodeErr _ tok ⟨st1, body, none⟩ invalidJsonMsg rfl rfl]
    exact failsWith_wrap _ _ _
  · intro u hU
    rw [kakao_GetUserInfo_ok _ tok ⟨st1, body, j⟩ u hU rfl]
  · rcases hU : Google.unmarshalUserInfo j with m | u
    · rw [google_GetUserInfo_decodeErr _ tok ⟨st1, body, j⟩ m hU rfl,
        google_GetUserInfo_decodeErr _ tok ⟨st2, body, j⟩ m hU rfl]
    · rw [google_GetUserInfo_ok _ tok ⟨st1, body, j⟩ u hU rfl,
        google_GetUserInfo_ok _ tok ⟨st2, body, j⟩ u hU rfl]
  · intro hj
    subst hj
    rw [google_GetUserInfo_decodeErr _ tok ⟨st1, body, none⟩ invalidJsonMsg rfl rfl]
    exact failsWith_wrap _ _ _
  · intro u hU
    rw [google_GetUserInfo_ok _ tok ⟨st1, body, j⟩ u hU rfl]

/-- Witness for C8: an HTTP 401 with non-JSON body surfaces as
`UserInfoRequestFailed`, and an HTTP 500 whose body decodes as the Kakao
user payload is treated as success. -/
theorem claim_C8_witness :
    failsWith ((Naver.GetUserInfo
        ⟨constExec (.ok ⟨401, gs "unauthorized", none⟩), gs "cid", gs "sec", gs "cb"⟩
        (gs "t")).1) .userInfoRequestFailed ∧
    (Kakao.GetUserInfo
        ⟨constExec (.ok ⟨500, gs "kakao user body", respKakaoUser.bodyJson⟩),
          gs "cid", gs "sec", gs "cb"⟩ (gs "t")).1 =
      .ok ⟨1001, ⟨gs "a@b.com", ⟨gs "nick", []⟩, [], []⟩⟩ := by
  have h1 := claim_C8 (gs "cid") (gs "sec") (gs "cb") (gs "t") (gs "unauthorized") none 401 200
  have h2 := claim_C8 (gs "cid") (gs "sec") (gs "cb") (gs "t") (gs "kakao user body")
    respKakaoUser.bodyJson 500 200
  exact ⟨h1.1.2.1 rfl, h2.2.1.2.2 ⟨1001, ⟨gs "a@b.com", ⟨gs "nick", []⟩, [], []⟩⟩ rfl⟩

/-! ## C9: provider wrapping of errors -/

/-- Counterexample to C9 as stated: wrapping the same base error and
context for two different providers yields error values whose
message-erased structures are identical — every non-message observable
(the `%w` unwrap chain and sentinel identities) coincides — so no caller
can determine which provider failed without examining the message
string.  The two messages do differ, and that is the only difference. -/
theorem claim_C9_counterexample :
    eraseMsgs (WrapProviderError (gs "google") .tokenRequestFailed (gs "ctx")) =
      eraseMsgs (WrapProviderError (gs "kakao") .tokenRequestFailed (gs "ctx")) ∧
    Google.ProviderType ≠ Kakao.ProviderType ∧
    errMessage (WrapProviderError (gs "google") .tokenRequestFailed (gs "ctx")) ≠
      errMessage (WrapProviderError (gs "kakao") .tokenRequestFailed (gs "ctx")) := by
  refine ⟨rfl, by decide, by decide⟩

/-- C9 amended: every adapter error is wrapped so that the provider
identifier begins the error message (`"<provider> provider: "` is a
prefix of the message text) and the underlying taxonomy kind still
matches via `errors.Is` unwrapping — but the provider is recoverable
only from the message text, not from the error structure. -/
theorem claim_C9_amended (p : GoStr) (base : GoError) (ctx : GoStr) :
    errorsIs (WrapProviderError p base ctx) base = true ∧
    (∃ t, errMessage (WrapProviderError p base ctx) = (p ++ gs " provider: ") ++ t) ∧
    eraseMsgs (WrapProviderError p base ctx) = .errorf (eraseMsgs base) := by
  refine ⟨errorsIs_wrapProviderError p base ctx, ?_, rfl⟩
  exact ⟨errMessage base ++ gs ": " ++ ctx, by simp [WrapProviderError, errMessage]⟩
